import Mathlib

/-!
Verification of the marker-stream decoding core of the AqMD3 streaming
examples (header `LibTool.h`).  The C++ definitions are shallowly embedded:

* 32-bit stream elements are modelled as `Nat` bit patterns (callers keep
  them below `2 ^ 32`; every bit operation below masks exactly where the
  C++ code masks, so high garbage bits never influence a decoded field
  that the C++ could not also see);
* `int32_t` / `int64_t` quantities that take part in signed arithmetic are
  modelled as `Int`, with the C++ truncating division written `Int.tdiv`
  and the `INT64_MAX` overflow guards kept explicit;
* fallible operations (C++ `throw`) return `Except`; operations that
  mutate a stream or decoder passed by reference return, on error, the
  state the reference holds at the moment of the throw, mirroring the
  exception semantics of the original code.
-/

/-- Decidable equality of `Except` values (used to evaluate the embedded
fallible operations on concrete inputs). -/
instance {ε α : Type} [DecidableEq ε] [DecidableEq α] : DecidableEq (Except ε α) := fun x y =>
  match x, y with
  | .error a, .error b =>
    if h : a = b then .isTrue (by rw [h]) else .isFalse (by intro hc; cases hc; exact h rfl)
  | .error _, .ok _ => .isFalse (by intro hc; cases hc)
  | .ok _, .error _ => .isFalse (by intro hc; cases hc)
  | .ok a, .ok b =>
    if h : a = b then .isTrue (by rw [h]) else .isFalse (by intro hc; cases hc; exact h rfl)

namespace LibTool

/-- `std::numeric_limits<int64_t>::max()`. -/
def INT64MAX : Int := 9223372036854775807

/-- `LibTool::CeilDiv`: divide rounding up, with the guards of the source
(`divider` must be positive; overflow check for positive `value`). -/
def CeilDiv (value divider : Int) : Except String Int :=
  if divider ≤ 0 then
    .error "Divider must be positive"
  else if value > 0 ∧ value > INT64MAX - divider + 1 then
    .error "Integer overflow in CeilDiv"
  else
    .ok ((value + (if value > 0 then divider - 1 else 0)).tdiv divider)

/-- `LibTool::AlignUp`: align `value` to the next multiple of `grain`. -/
def AlignUp (value grain : Int) : Except String Int :=
  if value > INT64MAX - (grain - 1) then
    .error "Aligned up value exceeding the numeric limit."
  else
    match CeilDiv value grain with
    | .error m => .error m
    | .ok q => .ok (q * grain)

/-- `LibTool::ArraySegment<T>`: a non-owning view `(data, offset, size)`
over a backing buffer.  The backing `std::vector` is modelled by the list
`data`. -/
structure ArraySegment (α : Type) where
  data : List α
  offset : Nat
  size : Nat
deriving DecidableEq

/-- The constructor contract of `ArraySegment`: building a segment fails
when `offset + count` exceeds the buffer length. -/
def ArraySegment.make (data : List α) (offset count : Nat) : Except String (ArraySegment α) :=
  if data.length < offset + count then
    .error "Array segment definition exceeds array size"
  else
    .ok ⟨data, offset, count⟩

/-- `ArraySegment::operator[]`: reads `m_data[m_offset + index]` with no
check against the segment size; the only hard boundary is the backing
buffer itself (reading past it is undefined behaviour in the C++, modelled
as `none`). -/
def ArraySegment.get (s : ArraySegment α) (index : Nat) : Option α :=
  s.data[s.offset + index]?

/-- `ArraySegment::Size`. -/
def ArraySegment.GetSize (s : ArraySegment α) : Nat := s.size

/-- `ArraySegment::PopFront`: throws when asked to pop more elements than
the segment holds, otherwise advances the window. -/
def ArraySegment.PopFront (s : ArraySegment α) (nbrElements : Nat) : Except String (ArraySegment α) :=
  if s.size < nbrElements then
    .error "Cannot pop more elements than the segment size"
  else
    .ok ⟨s.data, s.offset + nbrElements, s.size - nbrElements⟩

/-- The construction-time invariant of a segment (established by
`ArraySegment.make`, preserved by `PopFront`). -/
def ArraySegment.WellFormed (s : ArraySegment α) : Prop :=
  s.offset + s.size ≤ s.data.length

/-! `LibTool::MarkerTag` is an `enum class : uint8_t`; the source casts an
arbitrary byte into it (`MarkerTag(element & 0xff)`), so the tag is
modelled as the raw byte value. -/

def MarkerTag.None : Nat := 0x00

def MarkerTag.TriggerNormal : Nat := 0x01

def MarkerTag.TriggerAverager : Nat := 0x02

def MarkerTag.GateStartCst : Nat := 0x04

def MarkerTag.GateStopCst : Nat := 0x05

def MarkerTag.DummyGate : Nat := 0x08

def MarkerTag.RecordStop : Nat := 0x0a

/-- `LibTool::TriggerMarker` with the in-class initializers of the source
as default field values. -/
structure TriggerMarker where
  tag : Nat := MarkerTag.None
  triggerTimeSamples : ℚ := 0
  absoluteSampleIndex : Nat := 0
  recordIndex : Nat := 0
deriving DecidableEq

/-- `TriggerMarker::RecordIndexMask`. -/
def TriggerMarker.RecordIndexMask : Nat := 0x00ffffff

/-- `ExtractTag` (both the `StandardStreaming` and the `ZeroSuppress`
versions apply the same mask `& 0xff`). -/
def ExtractTag (element : Nat) : Nat := element &&& 0xff

/-- `IsTriggerMarkerTag` (identical in `StandardStreaming` and in
`ZeroSuppress::MarkerStreamDecoder`). -/
def IsTriggerMarkerTag (tag : Nat) : Bool :=
  tag == MarkerTag.TriggerNormal || tag == MarkerTag.TriggerAverager

namespace ZeroSuppress

/-- `ZeroSuppress::ProcessingParameters`. -/
structure ProcessingParameters where
  storageBlockSamples : Int
  processingBlockSamples : Int
  timestampPeriod : ℚ
  preGateSamples : Int
  postGateSamples : Int
deriving DecidableEq

/-- `GateMarker::ExtractPosition`: gate position (in processing blocks)
from the two 32-bit elements of a raw gate marker. -/
def GateMarker.ExtractPosition (element0 element1 : Nat) : Int :=
  ((((element1 &&& 0xffffff) <<< 8) ||| ((element0 >>> 24) &&& 0xff) : Nat) : Int)

/-- `ZeroSuppress::GateStartMarker` (fields only; the checked constructor
is `GateStartMarker.fromElements`). -/
structure GateStartMarker where
  blockIndex : Int
  startSampleIndex : Int
deriving DecidableEq

/-- Constructor `GateStartMarker(element0, element1)`: requires the
gate-start tag and a strictly positive block index. -/
def GateStartMarker.fromElements (element0 element1 : Nat) : Except String GateStartMarker :=
  if ExtractTag element0 ≠ MarkerTag.GateStartCst then
    .error "Expected gate start tag"
  else if GateMarker.ExtractPosition element0 element1 < 1 then
    .error "Start block index must be strict positive"
  else
    .ok ⟨GateMarker.ExtractPosition element0 element1, (((element1 >>> 24) &&& 0xff : Nat) : Int)⟩

/-- `ZeroSuppress::StopMarker`; the default field values are those of the
default constructor `StopMarker()` (block index 1, gate end index 0, tag
`RecordStop`). -/
structure StopMarker where
  blockIndex : Int := 1
  gateEndIndex : Int := 0
  tag : Nat := MarkerTag.RecordStop
deriving DecidableEq

/-- Constructor `StopMarker(element0, element1)`: requires a gate-stop or
record-stop tag and a strictly positive block index. -/
def StopMarker.fromElements (element0 element1 : Nat) : Except String StopMarker :=
  if ExtractTag element0 ≠ MarkerTag.GateStopCst ∧ ExtractTag element0 ≠ MarkerTag.RecordStop then
    .error "Expected gate stop or record stop tags from header"
  else if GateMarker.ExtractPosition element0 element1 < 1 then
    .error "Start block index must be strict positive"
  else
    .ok ⟨GateMarker.ExtractPosition element0 element1,
         (((element1 >>> 24) &&& 0xff : Nat) : Int), ExtractTag element0⟩

/-- `StopMarker::IsRecordStop`. -/
def StopMarker.IsRecordStop (m : StopMarker) : Bool :=
  m.tag == MarkerTag.RecordStop

/-- `ZeroSuppress::GateMarker` (fields only; the checked constructor is
`GateMarker.make`). -/
structure GateMarker where
  startMarker : GateStartMarker
  stopMarker : StopMarker
deriving DecidableEq

/-- Constructor `GateMarker(startMarker, stopMarker)`: rejects a stop
block index smaller than the start block index (block-index counter
wraparound, flagged as unhandled in the source). -/
def GateMarker.make (startMarker : GateStartMarker) (stopMarker : StopMarker) :
    Except String GateMarker :=
  if stopMarker.blockIndex < startMarker.blockIndex then
    .error "Gate start block index exceeds stop block index."
  else
    .ok ⟨startMarker, stopMarker⟩

/-- `GateMarker::GetStoredSampleCount`: number of samples stored in memory
for the gate, including padding.  The `size_t` cast of the source on
`stop - start` is the identity for the non-negative differences the
`GateMarker` constructor admits. -/
def GateMarker.GetStoredSampleCount (g : GateMarker) (params : ProcessingParameters)
    (recordStop : StopMarker) : Except String Int :=
  let gateBlocks : Int := g.stopMarker.blockIndex - g.startMarker.blockIndex
  let postGateRecordBlocks : Int := recordStop.blockIndex - g.stopMarker.blockIndex
  if postGateRecordBlocks < 0 then
    .error "Block index of record-stop is smaller than block index of gate-stop."
  else
    let gateSamples := gateBlocks * params.processingBlockSamples
    let postGateRecordSamples := postGateRecordBlocks * params.processingBlockSamples
    let additionalSamples := min postGateRecordSamples (params.preGateSamples + params.postGateSamples)
    AlignUp (gateSamples + additionalSamples) params.storageBlockSamples

/-- `ZeroSuppress::RecordDescriptor`, with the default constructor state
(default trigger, no gates, default record-stop marker). -/
structure RecordDescriptor where
  trigger : TriggerMarker := {}
  gateList : List GateMarker := []
  recordStop : StopMarker := {}
deriving DecidableEq

/-- `RecordDescriptor::SetRecordStopMarker`: rejects a marker that is not
a record-stop. -/
def RecordDescriptor.SetRecordStopMarker (r : RecordDescriptor) (recordStop : StopMarker) :
    Except String RecordDescriptor :=
  if !recordStop.IsRecordStop then
    .error "Expected record-stop marker"
  else
    .ok { r with recordStop := recordStop }

/-- `RecordDescriptor::AddGate`. -/
def RecordDescriptor.AddGate (r : RecordDescriptor) (gate : GateMarker) : RecordDescriptor :=
  { r with gateList := r.gateList ++ [gate] }

end ZeroSuppress

/-- A marker stream is an `ArraySegment` of 32-bit elements. -/
abbrev MarkerStream := ArraySegment Nat

/-- `StandardStreaming::NbrTriggerMarkerElements` (512 bits). -/
def StandardStreaming.NbrTriggerMarkerElements : Nat := 16

/-!  A decode helper of the source takes the stream by reference, may
mutate it through `PopFront`, and may throw.  It is embedded as a function
`MarkerStream → Except (String × MarkerStream) (α × MarkerStream)`: the
stream paired with the error is the state the caller's reference holds at
the moment of the throw. -/

/-- `StandardStreaming::DecodeTriggerMarker` (the private
`ZeroSuppress::MarkerStreamDecoder::DecodeTriggerMarker` is a verbatim
copy of it in the source). -/
def StandardStreaming.DecodeTriggerMarker (s : MarkerStream) :
    Except (String × MarkerStream) (TriggerMarker × MarkerStream) :=
  match s.get 0 with
  | none => .error ("Read past the end of the backing buffer", s)
  | some header =>
    if !IsTriggerMarkerTag (ExtractTag header) then
      .error ("Expected trigger marker", s)
    else
      match s.get 1 with
      | none => .error ("Read past the end of the backing buffer", s)
      | some low =>
        match s.get 2 with
        | none => .error ("Read past the end of the backing buffer", s)
        | some high =>
          match s.PopFront 16 with
          | .error m => .error (m, s)
          | .ok s1 =>
            .ok ({ tag := ExtractTag header,
                   recordIndex := (header >>> 8) &&& TriggerMarker.RecordIndexMask,
                   triggerTimeSamples := -(((low &&& 0xff : Nat) : ℚ) / 256),
                   absoluteSampleIndex := (high <<< 24) ||| ((low >>> 8) &&& 0xffffff) }, s1)

namespace ZeroSuppress

/-- `MarkerStreamDecoder::State`. -/
inductive DecoderState where
  | ExpectTrigger
  | ExpectGate
  | ExpectAlign
deriving DecidableEq

/-- `MarkerStreamDecoder::Mode`. -/
inductive DecoderMode where
  | Normal
  | ZeroSuppress
deriving DecidableEq

/-- `ZeroSuppress::MarkerStreamDecoder` state: the completed-record FIFO,
the in-progress record, the mode and the state-machine cursor. -/
structure MarkerStreamDecoder where
  recordQueue : List RecordDescriptor
  currentRecord : RecordDescriptor
  mode : DecoderMode
  state : DecoderState
deriving DecidableEq

/-- The constructor `MarkerStreamDecoder(mode)`. -/
def MarkerStreamDecoder.make (mode : DecoderMode) : MarkerStreamDecoder :=
  ⟨[], {}, mode, DecoderState.ExpectTrigger⟩

/-- `MarkerStreamDecoder::GetAvailableRecordCount`. -/
def MarkerStreamDecoder.GetAvailableRecordCount (d : MarkerStreamDecoder) : Nat :=
  d.recordQueue.length

/-- `MarkerStreamDecoder::Pop`: throws on an empty queue (the decoder
paired with the error is its state at the throw, i.e. unchanged). -/
def MarkerStreamDecoder.Pop (d : MarkerStreamDecoder) :
    Except (String × MarkerStreamDecoder) (RecordDescriptor × MarkerStreamDecoder) :=
  match d.recordQueue with
  | [] => .error ("Cannot pop record descriptor from empty queue", d)
  | r :: rest => .ok (r, { d with recordQueue := rest })

/-- The `for` loop of `MarkerStreamDecoder::Take`: `count` repetitions of
`result.push_back(Pop())`. -/
def takeLoop : Nat → MarkerStreamDecoder → List RecordDescriptor →
    Except (String × MarkerStreamDecoder) (List RecordDescriptor × MarkerStreamDecoder)
  | 0, d, acc => .ok (acc, d)
  | Nat.succ n, d, acc =>
    match d.Pop with
    | .error e => .error e
    | .ok (r, d1) => takeLoop n d1 (acc ++ [r])

/-- `MarkerStreamDecoder::Take`: guarded by `count > 0` and
`count ≤ GetAvailableRecordCount()`, then pops `count` records. -/
def MarkerStreamDecoder.Take (d : MarkerStreamDecoder) (count : Int) :
    Except (String × MarkerStreamDecoder) (List RecordDescriptor × MarkerStreamDecoder) :=
  if count ≤ 0 then
    .error ("Number of record descriptors to take must be strict positive", d)
  else if (d.GetAvailableRecordCount : Int) < count then
    .error ("Cannot take that many record descriptors", d)
  else
    takeLoop count.toNat d []

/-- `MarkerStreamDecoder::WalkthroughDummyMarker`: consume one dummy gate
marker (2 elements), throwing on any other tag. -/
def MarkerStreamDecoder.WalkthroughDummyMarker (s : MarkerStream) :
    Except (String × MarkerStream) (Unit × MarkerStream) :=
  match s.get 0 with
  | none => .error ("Read past the end of the backing buffer", s)
  | some e0 =>
    if ExtractTag e0 ≠ MarkerTag.DummyGate then
      .error ("Expected Dummy gate marker", s)
    else
      match s.PopFront 2 with
      | .error m => .error (m, s)
      | .ok s1 => .ok ((), s1)

/-- `MarkerStreamDecoder::DecodeGateStartMarker`: build the start marker
from the first two elements, then consume them. -/
def MarkerStreamDecoder.DecodeGateStartMarker (s : MarkerStream) :
    Except (String × MarkerStream) (GateStartMarker × MarkerStream) :=
  match s.get 0 with
  | none => .error ("Read past the end of the backing buffer", s)
  | some e0 =>
    match s.get 1 with
    | none => .error ("Read past the end of the backing buffer", s)
    | some e1 =>
      match GateStartMarker.fromElements e0 e1 with
      | .error m => .error (m, s)
      | .ok g =>
        match s.PopFront 2 with
        | .error m => .error (m, s)
        | .ok s1 => .ok (g, s1)

/-- `MarkerStreamDecoder::DecodeStopMarker`: build the (gate or record)
stop marker from the first two elements, then consume them. -/
def MarkerStreamDecoder.DecodeStopMarker (s : MarkerStream) :
    Except (String × MarkerStream) (StopMarker × MarkerStream) :=
  match s.get 0 with
  | none => .error ("Read past the end of the backing buffer", s)
  | some e0 =>
    match s.get 1 with
    | none => .error ("Read past the end of the backing buffer", s)
    | some e1 =>
      match StopMarker.fromElements e0 e1 with
      | .error m => .error (m, s)
      | .ok g =>
        match s.PopFront 2 with
        | .error m => .error (m, s)
        | .ok s1 => .ok (g, s1)

/-- `MarkerStreamDecoder::DecodeGateMarker`: a start marker immediately
followed by a stop marker.  If the `GateMarker` constructor throws, the
four elements were already consumed. -/
def MarkerStreamDecoder.DecodeGateMarker (s : MarkerStream) :
    Except (String × MarkerStream) (GateMarker × MarkerStream) :=
  match MarkerStreamDecoder.DecodeGateStartMarker s with
  | .error e => .error e
  | .ok (startMarker, s1) =>
    match MarkerStreamDecoder.DecodeStopMarker s1 with
    | .error e => .error e
    | .ok (stopMarker, s2) =>
      match GateMarker.make startMarker stopMarker with
      | .error m => .error (m, s2)
      | .ok g => .ok (g, s2)

/-- The dummy-marker walkthrough loop at the head of
`DecodeNextMarkerZeroSuppressMode`: skip dummy markers until either the
stream is exhausted (`false`: the call returns without decoding) or a
non-dummy tag is found (`true`).  The body of
`WalkthroughDummyMarker` is inlined (its tag test has already succeeded). -/
def skipDummyLoop (s : MarkerStream) : Except (String × MarkerStream) (Bool × MarkerStream) :=
  if s.size = 0 then .ok (false, s)
  else
    match s.get 0 with
    | none => .error ("Read past the end of the backing buffer", s)
    | some e0 =>
      if ExtractTag e0 ≠ MarkerTag.DummyGate then .ok (true, s)
      else if h2 : s.size < 2 then
        .error ("Cannot pop more elements than the segment size", s)
      else
        skipDummyLoop ⟨s.data, s.offset + 2, s.size - 2⟩
termination_by s.size
decreasing_by simp_all; omega

/-- The result type of a full decoder step: on error the pair carries the
decoder object and the stream as the caller sees them after the throw. -/
abbrev DecodeStepResult :=
  Except (String × MarkerStreamDecoder × MarkerStream) (MarkerStreamDecoder × MarkerStream)

/-- `MarkerStreamDecoder::DecodeNextMarkerNormalMode`: decode one trigger
marker into a fresh gate-less record descriptor and queue it. -/
def MarkerStreamDecoder.DecodeNextMarkerNormalMode (d : MarkerStreamDecoder)
    (s : MarkerStream) : DecodeStepResult :=
  match StandardStreaming.DecodeTriggerMarker s with
  | .error (m, s1) => .error (m, d, s1)
  | .ok (t, s1) =>
    .ok ({ d with recordQueue := d.recordQueue ++ [{ trigger := t }] }, s1)

/-- `MarkerStreamDecoder::DecodeNextMarkerZeroSuppressMode`: one step of
the ZeroSuppress state machine. -/
def MarkerStreamDecoder.DecodeNextMarkerZeroSuppressMode (d : MarkerStreamDecoder)
    (s : MarkerStream) : DecodeStepResult :=
  if d.state = DecoderState.ExpectTrigger ∨ d.state = DecoderState.ExpectAlign then
    match skipDummyLoop s with
    | .error (m, s1) => .error (m, d, s1)
    | .ok (false, s1) => .ok (d, s1)
    | .ok (true, s1) =>
      match StandardStreaming.DecodeTriggerMarker s1 with
      | .error (m, s2) => .error (m, { d with currentRecord := {} }, s2)
      | .ok (t, s2) =>
        .ok ({ d with currentRecord := { trigger := t },
                      state := DecoderState.ExpectGate }, s2)
  else if d.state = DecoderState.ExpectGate then
    match s.get 0 with
    | none => .error ("Read past the end of the backing buffer", d, s)
    | some e0 =>
      if ExtractTag e0 = MarkerTag.GateStartCst then
        match MarkerStreamDecoder.DecodeGateMarker s with
        | .error (m, s1) => .error (m, d, s1)
        | .ok (gate, s1) =>
          if gate.stopMarker.IsRecordStop then
            match (d.currentRecord.AddGate gate).SetRecordStopMarker gate.stopMarker with
            | .error m =>
              .error (m, { d with currentRecord := d.currentRecord.AddGate gate }, s1)
            | .ok r =>
              .ok ({ d with currentRecord := r,
                            recordQueue := d.recordQueue ++ [r],
                            state := DecoderState.ExpectAlign }, s1)
          else
            .ok ({ d with currentRecord := d.currentRecord.AddGate gate }, s1)
      else if ExtractTag e0 = MarkerTag.RecordStop then
        match MarkerStreamDecoder.DecodeStopMarker s with
        | .error (m, s1) => .error (m, d, s1)
        | .ok (stop, s1) =>
          match d.currentRecord.SetRecordStopMarker stop with
          | .error m => .error (m, d, s1)
          | .ok r =>
            if stop.IsRecordStop then
              .ok ({ d with currentRecord := r,
                            recordQueue := d.recordQueue ++ [r],
                            state := DecoderState.ExpectAlign }, s1)
            else
              .ok ({ d with currentRecord := r }, s1)
      else
        .error ("Expected gate marker but got marker with another tag value", d, s)
  else
    .error ("Unexpected ZeroSuppress decoding state", d, s)

/-- `MarkerStreamDecoder::DecodeNextMarker`: reject an empty stream, then
dispatch on the decoder mode. -/
def MarkerStreamDecoder.DecodeNextMarker (d : MarkerStreamDecoder) (s : MarkerStream) :
    DecodeStepResult :=
  if s.size = 0 then
    .error ("Cannot decode markers from an empty stream", d, s)
  else
    match d.mode with
    | DecoderMode.ZeroSuppress => d.DecodeNextMarkerZeroSuppressMode s
    | DecoderMode.Normal => d.DecodeNextMarkerNormalMode s

/-- The caller-driven decode loop: `k` successive `DecodeNextMarker`
calls (the repeated-call convention of the streaming control loop). -/
def MarkerStreamDecoder.DecodeNextMarkers : Nat → MarkerStreamDecoder → MarkerStream →
    DecodeStepResult
  | 0, d, s => .ok (d, s)
  | Nat.succ k, d, s =>
    match d.DecodeNextMarker s with
    | .error e => .error e
    | .ok (d1, s1) => MarkerStreamDecoder.DecodeNextMarkers k d1 s1

end ZeroSuppress

/-- The trigger-marker fields as decoded by `DecodeTriggerMarker` from the
first three 32-bit elements of the marker. -/
def triggerFromElements (t0 t1 t2 : Nat) : TriggerMarker :=
  { tag := ExtractTag t0,
    recordIndex := (t0 >>> 8) &&& TriggerMarker.RecordIndexMask,
    triggerTimeSamples := -(((t1 &&& 0xff : Nat) : ℚ) / 256),
    absoluteSampleIndex := (t2 <<< 24) ||| ((t1 >>> 8) &&& 0xffffff) }

/-- The raw element sequence of a list of 2-element dummy-gate markers. -/
def dummyFlat : List (Nat × Nat) → List Nat
  | [] => []
  | p :: ps => p.1 :: p.2 :: dummyFlat ps

end LibTool

namespace LibTool

/-- Helper: a list read by `getElem?` yields a value exactly when the index
is inside the list. -/
theorem list_get_isSome_iff {α : Type} (l : List α) (i : Nat) :
    (l[i]?).isSome = true ↔ i < l.length := by
  rw [Option.isSome_iff_exists]
  constructor
  · rintro ⟨v, hv⟩
    exact (List.getElem?_eq_some.mp hv).1
  · intro h
    exact ⟨l[i], List.getElem?_eq_some.mpr ⟨h, rfl⟩⟩

/-- C5: `PopFront n` on a segment of size `S` fails iff `n > S`; on success
the new segment has size `S - n`, element `i` of the new segment is element
`i + n` of the old one for every `i < S - n`, and the backing buffer is
untouched. -/
theorem arraySegment_popFront_spec {α : Type} (s : ArraySegment α) (n : Nat) :
    ((∃ m, s.PopFront n = .error m) ↔ s.size < n) ∧
    (n ≤ s.size →
      s.PopFront n = .ok ⟨s.data, s.offset + n, s.size - n⟩ ∧
      (∀ s' , s.PopFront n = .ok s' →
        s'.size = s.size - n ∧
        (∀ i, i < s.size - n → s'.get i = s.get (i + n)) ∧
        s'.data = s.data)) := by
  constructor
  · constructor
    · rintro ⟨m, hm⟩
      by_contra hlt
      simp [ArraySegment.PopFront, if_neg hlt] at hm
    · intro hlt
      exact ⟨"Cannot pop more elements than the segment size",
        by simp [ArraySegment.PopFront, if_pos hlt]⟩
  · intro hle
    have hnot : ¬ s.size < n := by omega
    constructor
    · simp [ArraySegment.PopFront, if_neg hnot]
    · intro s' hs'
      simp only [ArraySegment.PopFront, if_neg hnot, Except.ok.injEq] at hs'
      subst hs'
      refine ⟨rfl, ?_, rfl⟩
      intro i _
      simp [ArraySegment.get]
      congr 1
      omega

/-- Witness for `arraySegment_popFront_spec` at a concrete segment. -/
theorem arraySegment_popFront_spec_witness :
    (2 : Nat) ≤ (⟨[10, 20, 30], 0, 3⟩ : ArraySegment Nat).size ∧
    ((⟨[10, 20, 30], 0, 3⟩ : ArraySegment Nat).PopFront 2 =
      .ok ⟨[10, 20, 30], 0 + 2, 3 - 2⟩ ∧
      (∀ s', (⟨[10, 20, 30], 0, 3⟩ : ArraySegment Nat).PopFront 2 = .ok s' →
        s'.size = 3 - 2 ∧
        (∀ i, i < 3 - 2 →
          s'.get i = (⟨[10, 20, 30], 0, 3⟩ : ArraySegment Nat).get (i + 2)) ∧
        s'.data = [10, 20, 30])) :=
  ⟨by decide, (arraySegment_popFront_spec ⟨[10, 20, 30], 0, 3⟩ 2).2 (by decide)⟩

/-- C8 counterexample: the indexed read is not checked against the segment
size.  The well-formed segment of size 1 over the buffer `[10, 20, 30]`
yields a value (not an error) when read at index 2, although `2 ≥ size`. -/
theorem arraySegment_get_unchecked_counterexample :
    (⟨[10, 20, 30], 0, 1⟩ : ArraySegment Nat).WellFormed ∧
    (⟨[10, 20, 30], 0, 1⟩ : ArraySegment Nat).size ≤ 2 ∧
    (⟨[10, 20, 30], 0, 1⟩ : ArraySegment Nat).get 2 = some 30 := by
  refine ⟨?_, by decide, rfl⟩
  unfold ArraySegment.WellFormed
  decide

/-- C8 (amended): an indexed read returns a value exactly when
`offset + i` is inside the backing buffer; in particular every in-segment
read (`i < size`) of a well-formed segment succeeds, but the read is not
range-checked against the segment size itself. -/
theorem arraySegment_get_amended_spec {α : Type} (s : ArraySegment α) (i : Nat) :
    ((s.get i).isSome ↔ s.offset + i < s.data.length) ∧
    (s.WellFormed → i < s.size → (s.get i).isSome) := by
  constructor
  · rw [ArraySegment.get, list_get_isSome_iff]
  · intro hwf hi
    rw [ArraySegment.get, list_get_isSome_iff]
    unfold ArraySegment.WellFormed at hwf
    omega

/-- Helper: under the overflow bound of the source guards, `AlignUp` is
exactly "round up to the nearest multiple of `grain`". -/
theorem alignUp_rounds_up (v g : Int) (hg : 0 < g) (hov : v ≤ INT64MAX - g + 1) :
    ∃ out, AlignUp v g = .ok out ∧ g ∣ out ∧ v ≤ out ∧ out < v + g := by
  have hneg1 : ¬ (v > INT64MAX - (g - 1)) := by omega
  have hdiv : ¬ (g ≤ 0) := by omega
  have hneg2 : ¬ (v > 0 ∧ v > INT64MAX - g + 1) := by omega
  have hrun : AlignUp v g = .ok ((v + (if v > 0 then g - 1 else 0)).tdiv g * g) := by
    simp only [AlignUp, CeilDiv, if_neg hneg1, if_neg hdiv, if_neg hneg2]
  by_cases hvpos : v > 0
  · rw [if_pos hvpos] at hrun
    set w : Int := v + (g - 1) with hw
    have hkey : w.tdiv g = w / g := Int.tdiv_eq_ediv (by omega) (by omega)
    set q : Int := w / g with hq
    set m : Int := w % g with hm
    have hqm : g * q + m = w := Int.ediv_add_emod w g
    have hm0 : 0 ≤ m := Int.emod_nonneg w (by omega)
    have hms : m < g := Int.emod_lt_of_pos w hg
    have hout : q * g = w - m := by
      have hc : g * q = q * g := mul_comm g q
      linarith
    refine ⟨q * g, ?_, dvd_mul_left g q, by omega, by omega⟩
    rw [hrun, hkey]
  · rw [if_neg hvpos] at hrun
    set u : Int := -v with hu
    have hvu : v = -u := by omega
    have hneg : v.tdiv g = -(u.tdiv g) := by
      rw [hvu, Int.neg_tdiv u g]
    have hkey : u.tdiv g = u / g := Int.tdiv_eq_ediv (by omega) (by omega)
    set q : Int := u / g with hq
    set m : Int := u % g with hm
    have hqm : g * q + m = u := Int.ediv_add_emod u g
    have hm0 : 0 ≤ m := Int.emod_nonneg u (by omega)
    have hms : m < g := Int.emod_lt_of_pos u hg
    have hq1 : q * g = u - m := by
      have hc : g * q = q * g := mul_comm g q
      linarith
    have hcalc : v.tdiv g * g = v + m := by
      rw [hneg, hkey]
      have h2 : (-q) * g = -(q * g) := by ring
      rw [h2, hq1]
      omega
    refine ⟨v + m, ?_, ?_, by omega, by omega⟩
    · rw [hrun, add_zero, hcalc]
    · rw [← hcalc, hneg, hkey]
      exact dvd_mul_left g (-q)

/-- C1: for a gate with start block `s`, stop block `p` (`s ≤ p`), a
record-stop at block `r` (`p ≤ r`) and positive `storageBlockSamples`,
`GetStoredSampleCount` returns `(p - s) * processingBlockSamples +
min ((r - p) * processingBlockSamples, preGateSamples + postGateSamples)`
rounded up to the nearest multiple of `storageBlockSamples` (under the
explicit `INT64_MAX` overflow guard of the source); at start=2, stop=5,
processingBlockSamples=16, preGate=postGate=0, storageBlockSamples=16 and
record stop at block 10 the result is exactly 48. -/
theorem gateMarker_getStoredSampleCount_spec
    (g : ZeroSuppress.GateMarker) (params : ZeroSuppress.ProcessingParameters)
    (recordStop : ZeroSuppress.StopMarker)
    (hsp : g.startMarker.blockIndex ≤ g.stopMarker.blockIndex)
    (hpr : g.stopMarker.blockIndex ≤ recordStop.blockIndex)
    (hsbs : 0 < params.storageBlockSamples)
    (hov : (g.stopMarker.blockIndex - g.startMarker.blockIndex) * params.processingBlockSamples
        + min ((recordStop.blockIndex - g.stopMarker.blockIndex) * params.processingBlockSamples)
              (params.preGateSamples + params.postGateSamples)
        ≤ INT64MAX - params.storageBlockSamples + 1) :
    (∃ out, g.GetStoredSampleCount params recordStop = .ok out ∧
      params.storageBlockSamples ∣ out ∧
      (g.stopMarker.blockIndex - g.startMarker.blockIndex) * params.processingBlockSamples
        + min ((recordStop.blockIndex - g.stopMarker.blockIndex) * params.processingBlockSamples)
              (params.preGateSamples + params.postGateSamples) ≤ out ∧
      out < (g.stopMarker.blockIndex - g.startMarker.blockIndex) * params.processingBlockSamples
        + min ((recordStop.blockIndex - g.stopMarker.blockIndex) * params.processingBlockSamples)
              (params.preGateSamples + params.postGateSamples)
        + params.storageBlockSamples) ∧
    ZeroSuppress.GateMarker.GetStoredSampleCount ⟨⟨2, 0⟩, ⟨5, 0, MarkerTag.GateStopCst⟩⟩
      ⟨16, 16, 0, 0, 0⟩ ⟨10, 0, MarkerTag.RecordStop⟩ = .ok 48 := by
  refine ⟨?_, by decide⟩
  have hpgr : ¬ (recordStop.blockIndex - g.stopMarker.blockIndex < 0) := by omega
  have hrun : g.GetStoredSampleCount params recordStop
      = AlignUp ((g.stopMarker.blockIndex - g.startMarker.blockIndex) * params.processingBlockSamples
          + min ((recordStop.blockIndex - g.stopMarker.blockIndex) * params.processingBlockSamples)
                (params.preGateSamples + params.postGateSamples)) params.storageBlockSamples := by
    simp only [ZeroSuppress.GateMarker.GetStoredSampleCount, if_neg hpgr]
  obtain ⟨out, h1, h2, h3, h4⟩ := alignUp_rounds_up _ params.storageBlockSamples hsbs hov
  exact ⟨out, by rw [hrun, h1], h2, h3, h4⟩

/-- Witness for `gateMarker_getStoredSampleCount_spec` at the concrete
instance of the claim. -/
theorem gateMarker_getStoredSampleCount_spec_witness :
    (∃ out, ZeroSuppress.GateMarker.GetStoredSampleCount
        ⟨⟨2, 0⟩, ⟨5, 0, MarkerTag.GateStopCst⟩⟩ ⟨16, 16, 0, 0, 0⟩
        ⟨10, 0, MarkerTag.RecordStop⟩ = .ok out ∧
      (16 : Int) ∣ out ∧
      ((5 : Int) - 2) * 16 + min (((10 : Int) - 5) * 16) (0 + 0) ≤ out ∧
      out < ((5 : Int) - 2) * 16 + min (((10 : Int) - 5) * 16) (0 + 0) + 16) ∧
    ZeroSuppress.GateMarker.GetStoredSampleCount ⟨⟨2, 0⟩, ⟨5, 0, MarkerTag.GateStopCst⟩⟩
      ⟨16, 16, 0, 0, 0⟩ ⟨10, 0, MarkerTag.RecordStop⟩ = .ok 48 :=
  gateMarker_getStoredSampleCount_spec ⟨⟨2, 0⟩, ⟨5, 0, MarkerTag.GateStopCst⟩⟩
    ⟨16, 16, 0, 0, 0⟩ ⟨10, 0, MarkerTag.RecordStop⟩
    (by decide) (by decide) (by decide) (by decide)

/-- Witness for `arraySegment_get_amended_spec`. -/
theorem arraySegment_get_amended_spec_witness :
    (((⟨[10, 20, 30], 0, 1⟩ : ArraySegment Nat).get 2).isSome ↔
      (0 : Nat) + 2 < ([10, 20, 30] : List Nat).length) ∧
    ((⟨[10, 20, 30], 0, 1⟩ : ArraySegment Nat).WellFormed →
      2 < (⟨[10, 20, 30], 0, 1⟩ : ArraySegment Nat).size →
      ((⟨[10, 20, 30], 0, 1⟩ : ArraySegment Nat).get 2).isSome) :=
  arraySegment_get_amended_spec ⟨[10, 20, 30], 0, 1⟩ 2

/-- Helper: successful run of `DecodeTriggerMarker` on a stream whose first
three readable elements are `t0 t1 t2` with a trigger tag and at least 16
elements in the segment. -/
theorem decodeTriggerMarker_ok (s : MarkerStream) (t0 t1 t2 : Nat)
    (h0 : s.get 0 = some t0) (h1 : s.get 1 = some t1) (h2 : s.get 2 = some t2)
    (htag : IsTriggerMarkerTag (ExtractTag t0) = true) (hsz : 16 ≤ s.size) :
    StandardStreaming.DecodeTriggerMarker s =
      .ok (triggerFromElements t0 t1 t2, ⟨s.data, s.offset + 16, s.size - 16⟩) := by
  have hpop : s.PopFront 16 = .ok ⟨s.data, s.offset + 16, s.size - 16⟩ := by
    rw [ArraySegment.PopFront, if_neg (by omega)]
  simp [StandardStreaming.DecodeTriggerMarker, h0, h1, h2, htag, hpop, triggerFromElements]

/-- Helper: `DecodeTriggerMarker` rejects a non-trigger leading tag
without consuming anything. -/
theorem decodeTriggerMarker_wrongTag (s : MarkerStream) (e0 : Nat)
    (h0 : s.get 0 = some e0) (htag : IsTriggerMarkerTag (ExtractTag e0) = false) :
    StandardStreaming.DecodeTriggerMarker s = .error ("Expected trigger marker", s) := by
  simp [StandardStreaming.DecodeTriggerMarker, h0, htag]

/-- C4: on a 16-element trigger marker whose leading tag is a trigger tag,
`DecodeTriggerMarker` consumes exactly 16 elements and returns the record
index (bits 8 to 31 of element 0, masked with `0x00FFFFFF`), the trigger
time in samples (low byte of element 1, negated and divided by 256) and
the absolute sample index (bits 8 to 31 of element 1 OR element 2 shifted
left by 24 bits). -/
theorem decodeTriggerMarker_fields_spec (s : MarkerStream) (t0 t1 t2 : Nat)
    (h0 : s.get 0 = some t0) (h1 : s.get 1 = some t1) (h2 : s.get 2 = some t2)
    (htag : IsTriggerMarkerTag (ExtractTag t0) = true) (hsz : 16 ≤ s.size) :
    ∃ res s1, StandardStreaming.DecodeTriggerMarker s = .ok (res, s1) ∧
      res.recordIndex = (t0 >>> 8) &&& 0x00ffffff ∧
      res.triggerTimeSamples = -(((t1 &&& 0xff : Nat) : ℚ) / 256) ∧
      res.absoluteSampleIndex = ((t1 >>> 8) &&& 0xffffff) ||| (t2 <<< 24) ∧
      res.tag = ExtractTag t0 ∧
      s1.data = s.data ∧ s1.offset = s.offset + 16 ∧ s1.size = s.size - 16 := by
  refine ⟨triggerFromElements t0 t1 t2, ⟨s.data, s.offset + 16, s.size - 16⟩,
    decodeTriggerMarker_ok s t0 t1 t2 h0 h1 h2 htag hsz, rfl, rfl, ?_, rfl, rfl, rfl, rfl⟩
  exact Nat.lor_comm _ _

/-- Witness for `decodeTriggerMarker_fields_spec`: a concrete 16-element
normal-trigger marker. -/
theorem decodeTriggerMarker_fields_spec_witness :
    ∃ res s1,
      StandardStreaming.DecodeTriggerMarker
        ⟨[0x01020301, 0x05040380, 0x00000007, 0, 0, 0, 0, 0, 0, 0, 0, 0, 0, 0, 0, 0], 0, 16⟩
        = .ok (res, s1) ∧
      res.recordIndex = ((0x01020301 : Nat) >>> 8) &&& 0x00ffffff ∧
      res.triggerTimeSamples = -((((0x05040380 : Nat) &&& 0xff : Nat) : ℚ) / 256) ∧
      res.absoluteSampleIndex = (((0x05040380 : Nat) >>> 8) &&& 0xffffff) ||| ((0x00000007 : Nat) <<< 24) ∧
      res.tag = ExtractTag 0x01020301 ∧
      s1.data = [0x01020301, 0x05040380, 0x00000007, 0, 0, 0, 0, 0, 0, 0, 0, 0, 0, 0, 0, 0] ∧
      s1.offset = 0 + 16 ∧ s1.size = 16 - 16 :=
  decodeTriggerMarker_fields_spec
    ⟨[0x01020301, 0x05040380, 0x00000007, 0, 0, 0, 0, 0, 0, 0, 0, 0, 0, 0, 0, 0], 0, 16⟩
    0x01020301 0x05040380 0x00000007 rfl rfl rfl (by decide) (by decide)

/-- Helper: successful run of `DecodeGateStartMarker` (gate-start tag,
positive block index, at least two elements). -/
theorem decodeGateStartMarker_ok (s : MarkerStream) (a0 a1 : Nat)
    (h0 : s.get 0 = some a0) (h1 : s.get 1 = some a1)
    (hta : ExtractTag a0 = MarkerTag.GateStartCst)
    (hpa : 1 ≤ ZeroSuppress.GateMarker.ExtractPosition a0 a1) (hsz : 2 ≤ s.size) :
    ZeroSuppress.MarkerStreamDecoder.DecodeGateStartMarker s =
      .ok (⟨ZeroSuppress.GateMarker.ExtractPosition a0 a1, (((a1 >>> 24) &&& 0xff : Nat) : Int)⟩,
           ⟨s.data, s.offset + 2, s.size - 2⟩) := by
  have hpop : s.PopFront 2 = .ok ⟨s.data, s.offset + 2, s.size - 2⟩ := by
    rw [ArraySegment.PopFront, if_neg (by omega)]
  simp [ZeroSuppress.MarkerStreamDecoder.DecodeGateStartMarker, h0, h1, hpop,
    ZeroSuppress.GateStartMarker.fromElements, hta, if_neg (by omega : ¬ ZeroSuppress.GateMarker.ExtractPosition a0 a1 < 1)]

/-- Helper: successful run of `DecodeStopMarker` (gate-stop or record-stop
tag, positive block index, at least two elements). -/
theorem decodeStopMarker_ok (s : MarkerStream) (b0 b1 : Nat)
    (h0 : s.get 0 = some b0) (h1 : s.get 1 = some b1)
    (htb : ExtractTag b0 = MarkerTag.GateStopCst ∨ ExtractTag b0 = MarkerTag.RecordStop)
    (hpb : 1 ≤ ZeroSuppress.GateMarker.ExtractPosition b0 b1) (hsz : 2 ≤ s.size) :
    ZeroSuppress.MarkerStreamDecoder.DecodeStopMarker s =
      .ok (⟨ZeroSuppress.GateMarker.ExtractPosition b0 b1, (((b1 >>> 24) &&& 0xff : Nat) : Int),
            ExtractTag b0⟩,
           ⟨s.data, s.offset + 2, s.size - 2⟩) := by
  have hpop : s.PopFront 2 = .ok ⟨s.data, s.offset + 2, s.size - 2⟩ := by
    rw [ArraySegment.PopFront, if_neg (by omega)]
  have htagok : ¬ (ExtractTag b0 ≠ MarkerTag.GateStopCst ∧ ExtractTag b0 ≠ MarkerTag.RecordStop) := by
    rcases htb with h | h <;> simp [h]
  simp [ZeroSuppress.MarkerStreamDecoder.DecodeStopMarker, h0, h1, hpop,
    ZeroSuppress.StopMarker.fromElements, if_neg htagok,
    if_neg (by omega : ¬ ZeroSuppress.GateMarker.ExtractPosition b0 b1 < 1)]

/-- Helper: successful run of `DecodeGateMarker` (start marker followed by
stop marker, stop block not before start block, at least four elements). -/
theorem decodeGateMarker_ok (s : MarkerStream) (a0 a1 b0 b1 : Nat)
    (h0 : s.get 0 = some a0) (h1 : s.get 1 = some a1)
    (h2 : s.get 2 = some b0) (h3 : s.get 3 = some b1)
    (hta : ExtractTag a0 = MarkerTag.GateStartCst)
    (hpa : 1 ≤ ZeroSuppress.GateMarker.ExtractPosition a0 a1)
    (htb : ExtractTag b0 = MarkerTag.GateStopCst ∨ ExtractTag b0 = MarkerTag.RecordStop)
    (hpb : 1 ≤ ZeroSuppress.GateMarker.ExtractPosition b0 b1)
    (hab : ZeroSuppress.GateMarker.ExtractPosition a0 a1 ≤ ZeroSuppress.GateMarker.ExtractPosition b0 b1)
    (hsz : 4 ≤ s.size) :
    ZeroSuppress.MarkerStreamDecoder.DecodeGateMarker s =
      .ok (⟨⟨ZeroSuppress.GateMarker.ExtractPosition a0 a1, (((a1 >>> 24) &&& 0xff : Nat) : Int)⟩,
            ⟨ZeroSuppress.GateMarker.ExtractPosition b0 b1, (((b1 >>> 24) &&& 0xff : Nat) : Int),
             ExtractTag b0⟩⟩,
           ⟨s.data, s.offset + 4, s.size - 4⟩) := by
  have h0' : (⟨s.data, s.offset + 2, s.size - 2⟩ : MarkerStream).get 0 = some b0 := by
    simpa [ArraySegment.get, Nat.add_assoc] using h2
  have h1' : (⟨s.data, s.offset + 2, s.size - 2⟩ : MarkerStream).get 1 = some b1 := by
    simpa [ArraySegment.get, Nat.add_assoc] using h3
  have hstop := decodeStopMarker_ok (⟨s.data, s.offset + 2, s.size - 2⟩ : MarkerStream)
    b0 b1 h0' h1' htb hpb (by simp; omega)
  simp [ZeroSuppress.MarkerStreamDecoder.DecodeGateMarker,
    decodeGateStartMarker_ok s a0 a1 h0 h1 hta hpa (by omega), hstop,
    ZeroSuppress.GateMarker.make, if_neg (by omega :
    ¬ ZeroSuppress.GateMarker.ExtractPosition b0 b1 < ZeroSuppress.GateMarker.ExtractPosition a0 a1)]
  omega

/-- C7: wherever a specific tag is required (trigger, gate-start, stop,
dummy marker, and the ExpectGate dispatch), a marker with another tag
makes the decode operation fail with a reported error, and the stream at
the throw still holds every element of the offending marker: the four
elementary decoders leave the stream untouched, and `DecodeGateMarker`
with a valid start but an invalid stop tag leaves the cursor exactly at
the offending stop marker. -/
theorem wrongTag_fails_without_consumption :
    (∀ (s : MarkerStream) (e0 : Nat), s.get 0 = some e0 →
      IsTriggerMarkerTag (ExtractTag e0) = false →
      StandardStreaming.DecodeTriggerMarker s = .error ("Expected trigger marker", s)) ∧
    (∀ (s : MarkerStream) (e0 e1 : Nat), s.get 0 = some e0 → s.get 1 = some e1 →
      ExtractTag e0 ≠ MarkerTag.GateStartCst →
      ZeroSuppress.MarkerStreamDecoder.DecodeGateStartMarker s =
        .error ("Expected gate start tag", s)) ∧
    (∀ (s : MarkerStream) (e0 e1 : Nat), s.get 0 = some e0 → s.get 1 = some e1 →
      ExtractTag e0 ≠ MarkerTag.GateStopCst → ExtractTag e0 ≠ MarkerTag.RecordStop →
      ZeroSuppress.MarkerStreamDecoder.DecodeStopMarker s =
        .error ("Expected gate stop or record stop tags from header", s)) ∧
    (∀ (s : MarkerStream) (e0 : Nat), s.get 0 = some e0 →
      ExtractTag e0 ≠ MarkerTag.DummyGate →
      ZeroSuppress.MarkerStreamDecoder.WalkthroughDummyMarker s =
        .error ("Expected Dummy gate marker", s)) ∧
    (∀ (s : MarkerStream) (a0 a1 b0 b1 : Nat),
      s.get 0 = some a0 → s.get 1 = some a1 → s.get 2 = some b0 → s.get 3 = some b1 →
      ExtractTag a0 = MarkerTag.GateStartCst →
      1 ≤ ZeroSuppress.GateMarker.ExtractPosition a0 a1 → 2 ≤ s.size →
      ExtractTag b0 ≠ MarkerTag.GateStopCst → ExtractTag b0 ≠ MarkerTag.RecordStop →
      ZeroSuppress.MarkerStreamDecoder.DecodeGateMarker s =
        .error ("Expected gate stop or record stop tags from header",
                ⟨s.data, s.offset + 2, s.size - 2⟩) ∧
      (⟨s.data, s.offset + 2, s.size - 2⟩ : MarkerStream).get 0 = some b0) ∧
    (∀ (d : ZeroSuppress.MarkerStreamDecoder) (s : MarkerStream) (e0 : Nat),
      d.state = ZeroSuppress.DecoderState.ExpectGate → s.get 0 = some e0 →
      ExtractTag e0 ≠ MarkerTag.GateStartCst → ExtractTag e0 ≠ MarkerTag.RecordStop →
      d.DecodeNextMarkerZeroSuppressMode s =
        .error ("Expected gate marker but got marker with another tag value", d, s)) := by
  refine ⟨?_, ?_, ?_, ?_, ?_, ?_⟩
  · intro s e0 h0 htag
    exact decodeTriggerMarker_wrongTag s e0 h0 htag
  · intro s e0 e1 h0 h1 htag
    simp [ZeroSuppress.MarkerStreamDecoder.DecodeGateStartMarker, h0, h1,
      ZeroSuppress.GateStartMarker.fromElements, if_pos htag]
  · intro s e0 e1 h0 h1 htag1 htag2
    simp [ZeroSuppress.MarkerStreamDecoder.DecodeStopMarker, h0, h1,
      ZeroSuppress.StopMarker.fromElements, if_pos (And.intro htag1 htag2)]
  · intro s e0 h0 htag
    simp [ZeroSuppress.MarkerStreamDecoder.WalkthroughDummyMarker, h0, if_pos htag]
  · intro s a0 a1 b0 b1 h0 h1 h2 h3 hta hpa hsz htb1 htb2
    have h0' : (⟨s.data, s.offset + 2, s.size - 2⟩ : MarkerStream).get 0 = some b0 := by
      simpa [ArraySegment.get, Nat.add_assoc] using h2
    have h1' : (⟨s.data, s.offset + 2, s.size - 2⟩ : MarkerStream).get 1 = some b1 := by
      simpa [ArraySegment.get, Nat.add_assoc] using h3
    refine ⟨?_, h0'⟩
    rw [ZeroSuppress.MarkerStreamDecoder.DecodeGateMarker,
      decodeGateStartMarker_ok s a0 a1 h0 h1 hta hpa hsz]
    simp [ZeroSuppress.MarkerStreamDecoder.DecodeStopMarker, h0', h1',
      ZeroSuppress.StopMarker.fromElements, if_pos (And.intro htb1 htb2)]
  · intro d s e0 hstate h0 htag1 htag2
    have hns : ¬ (d.state = ZeroSuppress.DecoderState.ExpectTrigger ∨
        d.state = ZeroSuppress.DecoderState.ExpectAlign) := by
      rw [hstate]; rintro (h | h) <;> cases h
    simp [ZeroSuppress.MarkerStreamDecoder.DecodeNextMarkerZeroSuppressMode, hns, hstate,
      h0, htag1, htag2]

/-- Witness for `wrongTag_fails_without_consumption` at concrete streams
(a dummy tag where a trigger is required, and conversely). -/
theorem wrongTag_fails_without_consumption_witness :
    StandardStreaming.DecodeTriggerMarker ⟨[0x08, 0], 0, 2⟩ =
      .error ("Expected trigger marker", ⟨[0x08, 0], 0, 2⟩) ∧
    ZeroSuppress.MarkerStreamDecoder.DecodeGateStartMarker ⟨[0x08, 0], 0, 2⟩ =
      .error ("Expected gate start tag", ⟨[0x08, 0], 0, 2⟩) ∧
    ZeroSuppress.MarkerStreamDecoder.DecodeStopMarker ⟨[0x08, 0], 0, 2⟩ =
      .error ("Expected gate stop or record stop tags from header", ⟨[0x08, 0], 0, 2⟩) ∧
    ZeroSuppress.MarkerStreamDecoder.WalkthroughDummyMarker ⟨[0x01, 0], 0, 2⟩ =
      .error ("Expected Dummy gate marker", ⟨[0x01, 0], 0, 2⟩) ∧
    (ZeroSuppress.MarkerStreamDecoder.DecodeGateMarker
        ⟨[0x01000004, 0, 0x08, 0], 0, 4⟩ =
      .error ("Expected gate stop or record stop tags from header",
              ⟨[0x01000004, 0, 0x08, 0], 0 + 2, 4 - 2⟩) ∧
      (⟨[0x01000004, 0, 0x08, 0], 0 + 2, 4 - 2⟩ : MarkerStream).get 0 = some 0x08) ∧
    ZeroSuppress.MarkerStreamDecoder.DecodeNextMarkerZeroSuppressMode
        ⟨[], {}, ZeroSuppress.DecoderMode.ZeroSuppress, ZeroSuppress.DecoderState.ExpectGate⟩
        ⟨[0x01, 0], 0, 2⟩ =
      .error ("Expected gate marker but got marker with another tag value",
        ⟨[], {}, ZeroSuppress.DecoderMode.ZeroSuppress, ZeroSuppress.DecoderState.ExpectGate⟩,
        ⟨[0x01, 0], 0, 2⟩) :=
  ⟨wrongTag_fails_without_consumption.1 _ 0x08 rfl (by decide),
   wrongTag_fails_without_consumption.2.1 _ 0x08 0 rfl rfl (by decide),
   wrongTag_fails_without_consumption.2.2.1 _ 0x08 0 rfl rfl (by decide) (by decide),
   wrongTag_fails_without_consumption.2.2.2.1 _ 0x01 rfl (by decide),
   wrongTag_fails_without_consumption.2.2.2.2.1 _ 0x01000004 0 0x08 0 rfl rfl rfl rfl
     (by decide) (by decide) (by decide) (by decide) (by decide),
   wrongTag_fails_without_consumption.2.2.2.2.2 _ _ 0x01 rfl rfl (by decide) (by decide)⟩

/-- Helper: with enough queued records, the `Take` loop pops exactly the
first `n` records in order and leaves the rest queued. -/
theorem takeLoop_ok (n : Nat) (d : ZeroSuppress.MarkerStreamDecoder)
    (acc : List ZeroSuppress.RecordDescriptor) (h : n ≤ d.recordQueue.length) :
    ZeroSuppress.takeLoop n d acc =
      .ok (acc ++ d.recordQueue.take n, { d with recordQueue := d.recordQueue.drop n }) := by
  induction n generalizing d acc with
  | zero => simp [ZeroSuppress.takeLoop]
  | succ k ih =>
    cases hq : d.recordQueue with
    | nil => rw [hq] at h; simp at h
    | cons r rest =>
      rw [hq] at h
      simp only [ZeroSuppress.takeLoop, ZeroSuppress.MarkerStreamDecoder.Pop, hq,
        List.take_succ_cons, List.drop_succ_cons]
      rw [ih { d with recordQueue := rest } (acc ++ [r]) (by simp at h ⊢; omega)]
      simp

/-- C6: `Take n` fails (leaving the decoder untouched) when `n ≤ 0` or
when fewer than `n` records are queued; otherwise it removes and returns
exactly the first `n` queued records in FIFO order, leaving the remainder
queued in order.  `Pop` is the single-record case and fails on an empty
queue. -/
theorem take_pop_fifo_spec :
    (∀ (d : ZeroSuppress.MarkerStreamDecoder) (n : Int), n ≤ 0 →
      d.Take n = .error ("Number of record descriptors to take must be strict positive", d)) ∧
    (∀ (d : ZeroSuppress.MarkerStreamDecoder) (n : Int), 0 < n →
      (d.recordQueue.length : Int) < n →
      d.Take n = .error ("Cannot take that many record descriptors", d)) ∧
    (∀ (d : ZeroSuppress.MarkerStreamDecoder) (n : Int), 0 < n →
      n ≤ (d.recordQueue.length : Int) →
      d.Take n = .ok (d.recordQueue.take n.toNat,
        { d with recordQueue := d.recordQueue.drop n.toNat })) ∧
    (∀ d : ZeroSuppress.MarkerStreamDecoder, d.recordQueue = [] →
      d.Pop = .error ("Cannot pop record descriptor from empty queue", d)) ∧
    (∀ (d : ZeroSuppress.MarkerStreamDecoder) (r : ZeroSuppress.RecordDescriptor)
       (rest : List ZeroSuppress.RecordDescriptor), d.recordQueue = r :: rest →
      d.Pop = .ok (r, { d with recordQueue := rest }) ∧
      d.Take 1 = .ok ([r], { d with recordQueue := rest })) := by
  have htake : ∀ (d : ZeroSuppress.MarkerStreamDecoder) (n : Int), 0 < n →
      n ≤ (d.recordQueue.length : Int) →
      d.Take n = .ok (d.recordQueue.take n.toNat,
        { d with recordQueue := d.recordQueue.drop n.toNat}) := by
    intro d n hn hlen
    rw [ZeroSuppress.MarkerStreamDecoder.Take, if_neg (by omega),
      if_neg (by simp [ZeroSuppress.MarkerStreamDecoder.GetAvailableRecordCount]; omega),
      takeLoop_ok n.toNat d [] (by omega)]
    simp
  refine ⟨?_, ?_, htake, ?_, ?_⟩
  · intro d n hn
    rw [ZeroSuppress.MarkerStreamDecoder.Take, if_pos hn]
  · intro d n hn hlen
    rw [ZeroSuppress.MarkerStreamDecoder.Take, if_neg (by omega),
      if_pos (by simp [ZeroSuppress.MarkerStreamDecoder.GetAvailableRecordCount]; omega)]
  · intro d hq
    simp [ZeroSuppress.MarkerStreamDecoder.Pop, hq]
  · intro d r rest hq
    refine ⟨by simp [ZeroSuppress.MarkerStreamDecoder.Pop, hq], ?_⟩
    rw [htake d 1 (by omega) (by simp [hq])]
    simp [hq]

/-- Witness for `take_pop_fifo_spec` on a one-record queue and an empty
queue. -/
theorem take_pop_fifo_spec_witness :
    ((⟨[{}], {}, ZeroSuppress.DecoderMode.Normal, ZeroSuppress.DecoderState.ExpectTrigger⟩ :
        ZeroSuppress.MarkerStreamDecoder).Take 0 =
      .error ("Number of record descriptors to take must be strict positive",
        ⟨[{}], {}, ZeroSuppress.DecoderMode.Normal, ZeroSuppress.DecoderState.ExpectTrigger⟩)) ∧
    ((⟨[{}], {}, ZeroSuppress.DecoderMode.Normal, ZeroSuppress.DecoderState.ExpectTrigger⟩ :
        ZeroSuppress.MarkerStreamDecoder).Take 2 =
      .error ("Cannot take that many record descriptors",
        ⟨[{}], {}, ZeroSuppress.DecoderMode.Normal, ZeroSuppress.DecoderState.ExpectTrigger⟩)) ∧
    ((⟨[{}], {}, ZeroSuppress.DecoderMode.Normal, ZeroSuppress.DecoderState.ExpectTrigger⟩ :
        ZeroSuppress.MarkerStreamDecoder).Take 1 =
      .ok (([{}] : List ZeroSuppress.RecordDescriptor).take (1 : Int).toNat,
        { (⟨[{}], {}, ZeroSuppress.DecoderMode.Normal, ZeroSuppress.DecoderState.ExpectTrigger⟩ :
            ZeroSuppress.MarkerStreamDecoder) with
          recordQueue := ([{}] : List ZeroSuppress.RecordDescriptor).drop (1 : Int).toNat })) ∧
    ((⟨[], {}, ZeroSuppress.DecoderMode.Normal, ZeroSuppress.DecoderState.ExpectTrigger⟩ :
        ZeroSuppress.MarkerStreamDecoder).Pop =
      .error ("Cannot pop record descriptor from empty queue",
        ⟨[], {}, ZeroSuppress.DecoderMode.Normal, ZeroSuppress.DecoderState.ExpectTrigger⟩)) ∧
    ((⟨[{}], {}, ZeroSuppress.DecoderMode.Normal, ZeroSuppress.DecoderState.ExpectTrigger⟩ :
        ZeroSuppress.MarkerStreamDecoder).Pop =
      .ok (({} : ZeroSuppress.RecordDescriptor),
        { (⟨[{}], {}, ZeroSuppress.DecoderMode.Normal, ZeroSuppress.DecoderState.ExpectTrigger⟩ :
            ZeroSuppress.MarkerStreamDecoder) with
          recordQueue := ([] : List ZeroSuppress.RecordDescriptor) })) :=
  ⟨take_pop_fifo_spec.1 _ 0 (by decide),
   take_pop_fifo_spec.2.1 _ 2 (by decide) (by decide),
   take_pop_fifo_spec.2.2.1 _ 1 (by decide) (by decide),
   take_pop_fifo_spec.2.2.2.1 _ rfl,
   (take_pop_fifo_spec.2.2.2.2 _ {} [] rfl).1⟩

/-- Helper: a stream holding exactly a run of dummy markers is walked
through completely and the loop reports exhaustion (`false`). -/
theorem skipDummyLoop_all_dummies (ds : List (Nat × Nat)) :
    ∀ (s : MarkerStream) (rest : List Nat),
    (∀ p ∈ ds, ExtractTag p.1 = MarkerTag.DummyGate) →
    s.data.drop s.offset = dummyFlat ds ++ rest →
    s.size = 2 * ds.length →
    ZeroSuppress.skipDummyLoop s = .ok (false, ⟨s.data, s.offset + 2 * ds.length, 0⟩) := by
  induction ds with
  | nil =>
    intro s rest hall hdrop hsz
    simp only [List.length_nil, Nat.mul_zero] at hsz
    rw [ZeroSuppress.skipDummyLoop, if_pos hsz]
    cases s with
    | mk data off sz => simp_all
  | cons p ps ih =>
    intro s rest hall hdrop hsz
    rw [List.length_cons] at hsz
    have hget0 : s.get 0 = some p.1 := by
      rw [ArraySegment.get, ← List.getElem?_drop, hdrop]
      simp [dummyFlat]
    have htag : ExtractTag p.1 = MarkerTag.DummyGate := hall p (by simp)
    have hdrop2 : s.data.drop (s.offset + 2) = dummyFlat ps ++ rest := by
      rw [← List.drop_drop, hdrop]
      simp [dummyFlat]
    have hrec := ih ⟨s.data, s.offset + 2, s.size - 2⟩ rest
      (fun q hq => hall q (by simp [hq])) (by simpa using hdrop2) (by simp; omega)
    rw [ZeroSuppress.skipDummyLoop]
    simp only [if_neg (by omega : ¬ s.size = 0), hget0, htag, ne_eq, not_true_eq_false,
      if_false, dif_neg (by omega : ¬ s.size < 2)]
    have hgoal : s.offset + 2 * (p :: ps).length = s.offset + 2 + 2 * ps.length := by
      rw [List.length_cons]; ring
    rw [hgoal]
    exact hrec

/-- Helper: a run of dummy markers followed by a non-dummy element is
walked through up to that element and the loop reports a marker to decode
(`true`). -/
theorem skipDummyLoop_then_marker (ds : List (Nat × Nat)) :
    ∀ (s : MarkerStream) (t0 : Nat) (rest : List Nat),
    (∀ p ∈ ds, ExtractTag p.1 = MarkerTag.DummyGate) →
    s.data.drop s.offset = dummyFlat ds ++ t0 :: rest →
    ExtractTag t0 ≠ MarkerTag.DummyGate →
    2 * ds.length < s.size →
    ZeroSuppress.skipDummyLoop s =
      .ok (true, ⟨s.data, s.offset + 2 * ds.length, s.size - 2 * ds.length⟩) := by
  induction ds with
  | nil =>
    intro s t0 rest hall hdrop hnd hsz
    simp only [List.length_nil, Nat.mul_zero] at hsz ⊢
    have hget0 : s.get 0 = some t0 := by
      rw [ArraySegment.get, ← List.getElem?_drop, hdrop]
      simp [dummyFlat]
    rw [ZeroSuppress.skipDummyLoop]
    simp only [if_neg (by omega : ¬ s.size = 0), hget0, ne_eq, hnd, not_false_eq_true, if_true]
    cases s with
    | mk data off sz => simp
  | cons p ps ih =>
    intro s t0 rest hall hdrop hnd hsz
    rw [List.length_cons] at hsz
    have hget0 : s.get 0 = some p.1 := by
      rw [ArraySegment.get, ← List.getElem?_drop, hdrop]
      simp [dummyFlat]
    have htag : ExtractTag p.1 = MarkerTag.DummyGate := hall p (by simp)
    have hdrop2 : s.data.drop (s.offset + 2) = dummyFlat ps ++ t0 :: rest := by
      rw [← List.drop_drop, hdrop]
      simp [dummyFlat]
    have hrec := ih ⟨s.data, s.offset + 2, s.size - 2⟩ t0 rest
      (fun q hq => hall q (by simp [hq])) (by simpa using hdrop2) hnd (by simp; omega)
    rw [ZeroSuppress.skipDummyLoop]
    simp only [if_neg (by omega : ¬ s.size = 0), hget0, htag, ne_eq, not_true_eq_false,
      if_false, dif_neg (by omega : ¬ s.size < 2)]
    have h1 : s.offset + 2 * (p :: ps).length = s.offset + 2 + 2 * ps.length := by
      rw [List.length_cons]; ring
    have h2 : s.size - 2 * (p :: ps).length = s.size - 2 - 2 * ps.length := by
      rw [List.length_cons]; omega
    rw [h1, h2]
    exact hrec

/-- C9: `DecodeNextMarker` on a size-0 stream always fails, in both modes
and every decoder state, with the decoder (queue, in-progress record,
cursor) and the stream returned unchanged; and the only way a call can
empty the stream and still succeed is the dummy-skipping path: in
ZeroSuppress mode, from ExpectTrigger or ExpectAlign, a non-empty stream
holding only dummy markers is consumed entirely and the call returns
without error and without touching the decoder. -/
theorem decodeNextMarker_empty_stream_spec :
    (∀ (d : ZeroSuppress.MarkerStreamDecoder) (s : MarkerStream), s.size = 0 →
      d.DecodeNextMarker s = .error ("Cannot decode markers from an empty stream", d, s)) ∧
    (∀ (d : ZeroSuppress.MarkerStreamDecoder) (s : MarkerStream) (ds : List (Nat × Nat)),
      d.mode = ZeroSuppress.DecoderMode.ZeroSuppress →
      (d.state = ZeroSuppress.DecoderState.ExpectTrigger ∨
        d.state = ZeroSuppress.DecoderState.ExpectAlign) →
      (∀ p ∈ ds, ExtractTag p.1 = MarkerTag.DummyGate) →
      s.data.drop s.offset = dummyFlat ds →
      s.size = 2 * ds.length → 0 < s.size →
      d.DecodeNextMarker s = .ok (d, ⟨s.data, s.offset + 2 * ds.length, 0⟩)) := by
  constructor
  · intro d s hsz
    rw [ZeroSuppress.MarkerStreamDecoder.DecodeNextMarker, if_pos hsz]
  · intro d s ds hmode hstate hall hdrop hsz hpos
    have hskip := skipDummyLoop_all_dummies ds s [] hall (by simp [hdrop]) hsz
    rw [ZeroSuppress.MarkerStreamDecoder.DecodeNextMarker, if_neg (by omega)]
    simp only [hmode]
    rw [ZeroSuppress.MarkerStreamDecoder.DecodeNextMarkerZeroSuppressMode, if_pos hstate]
    rw [hskip]

/-- Witness for `decodeNextMarker_empty_stream_spec`: an empty stream in
Normal mode, and a two-dummy-marker stream in ZeroSuppress ExpectAlign. -/
theorem decodeNextMarker_empty_stream_spec_witness :
    ((⟨[], {}, ZeroSuppress.DecoderMode.Normal, ZeroSuppress.DecoderState.ExpectTrigger⟩ :
        ZeroSuppress.MarkerStreamDecoder).DecodeNextMarker ⟨[], 0, 0⟩ =
      .error ("Cannot decode markers from an empty stream",
        ⟨[], {}, ZeroSuppress.DecoderMode.Normal, ZeroSuppress.DecoderState.ExpectTrigger⟩,
        ⟨[], 0, 0⟩)) ∧
    ((⟨[], {}, ZeroSuppress.DecoderMode.ZeroSuppress, ZeroSuppress.DecoderState.ExpectAlign⟩ :
        ZeroSuppress.MarkerStreamDecoder).DecodeNextMarker ⟨[0x08, 0, 0x08, 0], 0, 4⟩ =
      .ok (⟨[], {}, ZeroSuppress.DecoderMode.ZeroSuppress, ZeroSuppress.DecoderState.ExpectAlign⟩,
        ⟨[0x08, 0, 0x08, 0], 0 + 2 * 2, 0⟩)) :=
  ⟨decodeNextMarker_empty_stream_spec.1 _ ⟨[], 0, 0⟩ rfl,
   decodeNextMarker_empty_stream_spec.2 _ ⟨[0x08, 0, 0x08, 0], 0, 4⟩ [(0x08, 0), (0x08, 0)]
     rfl (Or.inr rfl) (by decide) (by decide) (by decide) (by decide)⟩

/-- Helper: a successful `SetRecordStopMarker` stores exactly the given
marker, which necessarily carries the record-stop tag. -/
theorem setRecordStopMarker_ok {r r' : ZeroSuppress.RecordDescriptor}
    {m : ZeroSuppress.StopMarker} (h : r.SetRecordStopMarker m = .ok r') :
    r' = { r with recordStop := m } ∧ m.tag = MarkerTag.RecordStop := by
  rw [ZeroSuppress.RecordDescriptor.SetRecordStopMarker] at h
  split at h
  · cases h
  · rename_i hcond
    refine ⟨by cases h; rfl, ?_⟩
    simp [ZeroSuppress.StopMarker.IsRecordStop] at hcond
    exact hcond

/-- C10: every record that reaches the completed-record queue carries a
record-stop marker tagged `RecordStop`: the default-constructed stop
marker has tag `RecordStop`, block index 1 and gate-end index 0 (used by
Normal-mode records); `SetRecordStopMarker` rejects any other tag; the
queue invariant is preserved by every successful `DecodeNextMarker`; and
`Pop`/`Take` only return records taken from the queue. -/
theorem queued_records_have_record_stop :
    (({} : ZeroSuppress.StopMarker) = ⟨1, 0, MarkerTag.RecordStop⟩) ∧
    (∀ (r : ZeroSuppress.RecordDescriptor) (m : ZeroSuppress.StopMarker),
      m.tag ≠ MarkerTag.RecordStop →
      r.SetRecordStopMarker m = .error "Expected record-stop marker") ∧
    (∀ (d d' : ZeroSuppress.MarkerStreamDecoder) (s s' : MarkerStream),
      (∀ r ∈ d.recordQueue, r.recordStop.tag = MarkerTag.RecordStop) →
      d.DecodeNextMarker s = .ok (d', s') →
      ∀ r ∈ d'.recordQueue, r.recordStop.tag = MarkerTag.RecordStop) ∧
    (∀ (d d' : ZeroSuppress.MarkerStreamDecoder) (r : ZeroSuppress.RecordDescriptor),
      d.Pop = .ok (r, d') → r ∈ d.recordQueue) ∧
    (∀ (d d' : ZeroSuppress.MarkerStreamDecoder) (n : Int)
       (out : List ZeroSuppress.RecordDescriptor),
      d.Take n = .ok (out, d') → ∀ r ∈ out, r ∈ d.recordQueue) := by
  refine ⟨rfl, ?_, ?_, ?_, ?_⟩
  · intro r m hm
    simp [ZeroSuppress.RecordDescriptor.SetRecordStopMarker, ZeroSuppress.StopMarker.IsRecordStop, hm]
  · intro d d' s s' hinv hok
    rw [ZeroSuppress.MarkerStreamDecoder.DecodeNextMarker] at hok
    split at hok
    · cases hok
    split at hok
    · -- ZeroSuppress mode
      rw [ZeroSuppress.MarkerStreamDecoder.DecodeNextMarkerZeroSuppressMode] at hok
      split at hok
      · -- ExpectTrigger / ExpectAlign
        split at hok
        · cases hok
        · cases hok
          exact hinv
        · split at hok
          · cases hok
          · cases hok
            exact hinv
      split at hok
      · -- ExpectGate
        split at hok
        · cases hok
        split at hok
        · -- GateStartCst
          split at hok
          · cases hok
          split at hok
          · -- record stop inside the gate marker
            split at hok
            · cases hok
            · rename_i r0 hset
              cases hok
              intro r hr
              simp only [List.mem_append, List.mem_singleton] at hr
              rcases hr with hr | hr
              · exact hinv r hr
              · obtain ⟨hr0, htag⟩ := setRecordStopMarker_ok hset
                rw [hr, hr0]
                exact htag
          · cases hok
            exact hinv
        split at hok
        · -- standalone RecordStop
          split at hok
          · cases hok
          · split at hok
            · cases hok
            · rename_i r0 hset
              split at hok
              · cases hok
                intro r hr
                simp only [List.mem_append, List.mem_singleton] at hr
                rcases hr with hr | hr
                · exact hinv r hr
                · obtain ⟨hr0, htag⟩ := setRecordStopMarker_ok hset
                  rw [hr, hr0]
                  exact htag
              · cases hok
                exact hinv
        · cases hok
      · cases hok
    · -- Normal mode
      rw [ZeroSuppress.MarkerStreamDecoder.DecodeNextMarkerNormalMode] at hok
      split at hok
      · cases hok
      · cases hok
        intro r hr
        simp only [List.mem_append, List.mem_singleton] at hr
        rcases hr with hr | hr
        · exact hinv r hr
        · rw [hr]
  · intro d d' r hpop
    rw [ZeroSuppress.MarkerStreamDecoder.Pop] at hpop
    split at hpop
    · cases hpop
    · rename_i r0 rest hq
      cases hpop
      rw [hq]
      exact List.mem_cons_self _ _
  · intro d d' n out htake
    rw [ZeroSuppress.MarkerStreamDecoder.Take] at htake
    split at htake
    · cases htake
    split at htake
    · cases htake
    · rename_i h1 h2
      rw [takeLoop_ok n.toNat d [] (by
        simp [ZeroSuppress.MarkerStreamDecoder.GetAvailableRecordCount] at h2
        omega)] at htake
      cases htake
      intro r hr
      simp only [List.nil_append] at hr
      exact List.take_subset _ _ hr

/-- Witness for `queued_records_have_record_stop`: invariant preserved by
one Normal-mode decode of a trigger marker, and queue membership through
`Pop` and `Take`. -/
theorem queued_records_have_record_stop_witness :
    (∀ r ∈ ([] : List ZeroSuppress.RecordDescriptor), r.recordStop.tag = MarkerTag.RecordStop) ∧
    (({} : ZeroSuppress.RecordDescriptor).SetRecordStopMarker ⟨3, 0, MarkerTag.GateStopCst⟩ =
      .error "Expected record-stop marker") ∧
    (∀ r ∈ ([{}] : List ZeroSuppress.RecordDescriptor), r ∈
      (⟨[{}], {}, ZeroSuppress.DecoderMode.Normal, ZeroSuppress.DecoderState.ExpectTrigger⟩ :
        ZeroSuppress.MarkerStreamDecoder).recordQueue) := by
  have hpop := queued_records_have_record_stop.2.2.2.1
    (⟨[{}], {}, ZeroSuppress.DecoderMode.Normal, ZeroSuppress.DecoderState.ExpectTrigger⟩ :
        ZeroSuppress.MarkerStreamDecoder)
    (⟨[], {}, ZeroSuppress.DecoderMode.Normal, ZeroSuppress.DecoderState.ExpectTrigger⟩ :
        ZeroSuppress.MarkerStreamDecoder)
    {} rfl
  refine ⟨?_, queued_records_have_record_stop.2.1 {} ⟨3, 0, MarkerTag.GateStopCst⟩ (by decide), ?_⟩
  · intro r hr
    cases hr
  · intro r hr
    simp only [List.mem_singleton] at hr
    rw [hr]
    exact hpop

/-- Helper: one Normal-mode `DecodeNextMarker` call on a stream whose
front holds a well-formed 16-element trigger marker appends one gate-less
record and consumes exactly 16 elements. -/
theorem decodeNextMarker_normal_step (d : ZeroSuppress.MarkerStreamDecoder) (s : MarkerStream)
    (t0 t1 t2 : Nat) (hmode : d.mode = ZeroSuppress.DecoderMode.Normal)
    (h0 : s.get 0 = some t0) (h1 : s.get 1 = some t1) (h2 : s.get 2 = some t2)
    (htag : IsTriggerMarkerTag (ExtractTag t0) = true) (hsz : 16 ≤ s.size) :
    d.DecodeNextMarker s =
      .ok ({ d with recordQueue := d.recordQueue ++ [{ trigger := triggerFromElements t0 t1 t2 }] },
        ⟨s.data, s.offset + 16, s.size - 16⟩) := by
  rw [ZeroSuppress.MarkerStreamDecoder.DecodeNextMarker, if_neg (by omega)]
  simp only [hmode, ZeroSuppress.MarkerStreamDecoder.DecodeNextMarkerNormalMode,
    decodeTriggerMarker_ok s t0 t1 t2 h0 h1 h2 htag hsz]

/-- Helper: zero decode calls change nothing. -/
theorem decodeNextMarkers_zero (d : ZeroSuppress.MarkerStreamDecoder) (s : MarkerStream) :
    ZeroSuppress.MarkerStreamDecoder.DecodeNextMarkers 0 d s = .ok (d, s) := rfl

/-- Helper: a successful call peels one step off the decode loop. -/
theorem decodeNextMarkers_succ (k : Nat) (d d1 : ZeroSuppress.MarkerStreamDecoder)
    (s s1 : MarkerStream) (h : d.DecodeNextMarker s = .ok (d1, s1)) :
    ZeroSuppress.MarkerStreamDecoder.DecodeNextMarkers (k + 1) d s =
      ZeroSuppress.MarkerStreamDecoder.DecodeNextMarkers k d1 s1 := by
  show (match d.DecodeNextMarker s with
    | Except.error e => Except.error e
    | Except.ok (d2, s2) => ZeroSuppress.MarkerStreamDecoder.DecodeNextMarkers k d2 s2) = _
  rw [h]

/-- Helper: the record descriptor produced for one decoded trigger-marker
element list (first three elements carry the payload). -/
theorem decodeNextMarkers_normal_run (ms : List (List Nat)) :
    ∀ (d : ZeroSuppress.MarkerStreamDecoder) (s : MarkerStream) (rest : List Nat),
    d.mode = ZeroSuppress.DecoderMode.Normal →
    (∀ m ∈ ms, m.length = 16 ∧ IsTriggerMarkerTag (ExtractTag (m.headD 0)) = true) →
    s.data.drop s.offset = ms.flatten ++ rest →
    16 * ms.length ≤ s.size →
    ZeroSuppress.MarkerStreamDecoder.DecodeNextMarkers ms.length d s =
      .ok ({ d with recordQueue := d.recordQueue ++ ms.map (fun m =>
          { trigger := triggerFromElements (m.headD 0) ((m.drop 1).headD 0) ((m.drop 2).headD 0) }) },
        ⟨s.data, s.offset + 16 * ms.length, s.size - 16 * ms.length⟩) := by
  induction ms with
  | nil =>
    intro d s rest hmode hall hdrop hsz
    simp only [List.length_nil, decodeNextMarkers_zero]
    cases d with
    | mk q cur mode st =>
      cases s with
      | mk data off sz => simp
  | cons m ms ih =>
    intro d s rest hmode hall hdrop hsz
    obtain ⟨hlen, htag⟩ := hall m (List.mem_cons_self m ms)
    rw [List.length_cons] at hsz
    cases m with
    | nil => simp at hlen
    | cons e0 m1 =>
    cases m1 with
    | nil => simp at hlen
    | cons e1 m2 =>
    cases m2 with
    | nil => simp at hlen
    | cons e2 m3 =>
    simp only [List.length_cons] at hlen
    have hflat : s.data.drop s.offset
        = e0 :: e1 :: e2 :: (m3 ++ (ms.flatten ++ rest)) := by
      rw [hdrop]
      simp [List.flatten_cons, List.append_assoc]
    have hg0 : s.get 0 = some e0 := by
      rw [ArraySegment.get, ← List.getElem?_drop, hflat]; simp
    have hg1 : s.get 1 = some e1 := by
      rw [ArraySegment.get, ← List.getElem?_drop, hflat]; simp
    have hg2 : s.get 2 = some e2 := by
      rw [ArraySegment.get, ← List.getElem?_drop, hflat]; simp
    have htag0 : IsTriggerMarkerTag (ExtractTag e0) = true := by
      simpa using htag
    have hstep := decodeNextMarker_normal_step d s e0 e1 e2 hmode hg0 hg1 hg2 htag0
      (by omega)
    have hdrop16 : s.data.drop (s.offset + 16) = ms.flatten ++ rest := by
      rw [← List.drop_drop, hflat]
      have h16 : (16 : Nat) = (e0 :: e1 :: e2 :: m3).length := by
        simp [List.length_cons]; omega
      rw [h16]
      have := List.drop_left (e0 :: e1 :: e2 :: m3) (ms.flatten ++ rest)
      simpa [List.append_assoc] using this
    have hrec := ih { d with recordQueue := d.recordQueue ++
        [{ trigger := triggerFromElements e0 e1 e2 }] }
      ⟨s.data, s.offset + 16, s.size - 16⟩ rest (by simpa using hmode)
      (fun q hq => hall q (List.mem_cons_of_mem _ hq))
      (by simpa using hdrop16) (by simp; omega)
    rw [List.length_cons, decodeNextMarkers_succ ms.length d _ s _ hstep, hrec]
    have h1 : s.offset + 16 + 16 * ms.length = s.offset + 16 * (ms.length + 1) := by ring
    have h2 : s.size - 16 - 16 * ms.length = s.size - 16 * (ms.length + 1) := by omega
    simp only [List.length_cons, h1, h2, List.map_cons, List.append_assoc,
      List.singleton_append, List.headD, List.drop_succ_cons, List.drop_zero]

/-- C3: in Normal mode each `DecodeNextMarker` call reads one 16-element
trigger marker from the front of the stream and appends one gate-less
record descriptor to the queue, failing (without consumption) when the
leading tag is not a trigger tag; hence `K` well-formed 16-element trigger
markers in a stream of exactly `16 K` elements decode to exactly `K`
queued records in arrival order, with the stream fully consumed. -/
theorem normalMode_decode_spec :
    (∀ (d : ZeroSuppress.MarkerStreamDecoder) (s : MarkerStream) (t0 t1 t2 : Nat),
      d.mode = ZeroSuppress.DecoderMode.Normal →
      s.get 0 = some t0 → s.get 1 = some t1 → s.get 2 = some t2 →
      IsTriggerMarkerTag (ExtractTag t0) = true → 16 ≤ s.size →
      d.DecodeNextMarker s =
        .ok ({ d with recordQueue := d.recordQueue ++ [{ trigger := triggerFromElements t0 t1 t2 }] },
          ⟨s.data, s.offset + 16, s.size - 16⟩)) ∧
    (∀ (d : ZeroSuppress.MarkerStreamDecoder) (s : MarkerStream) (e0 : Nat),
      d.mode = ZeroSuppress.DecoderMode.Normal →
      0 < s.size → s.get 0 = some e0 → IsTriggerMarkerTag (ExtractTag e0) = false →
      d.DecodeNextMarker s = .error ("Expected trigger marker", d, s)) ∧
    (∀ (d : ZeroSuppress.MarkerStreamDecoder) (ms : List (List Nat)) (s : MarkerStream),
      d.mode = ZeroSuppress.DecoderMode.Normal →
      (∀ m ∈ ms, m.length = 16 ∧ IsTriggerMarkerTag (ExtractTag (m.headD 0)) = true) →
      s.data.drop s.offset = ms.flatten →
      s.size = 16 * ms.length →
      ZeroSuppress.MarkerStreamDecoder.DecodeNextMarkers ms.length d s =
        .ok ({ d with recordQueue := d.recordQueue ++ ms.map (fun m =>
            { trigger := triggerFromElements (m.headD 0) ((m.drop 1).headD 0) ((m.drop 2).headD 0) }) },
          ⟨s.data, s.offset + 16 * ms.length, 0⟩)) := by
  refine ⟨decodeNextMarker_normal_step, ?_, ?_⟩
  · intro d s e0 hmode hsz h0 htag
    rw [ZeroSuppress.MarkerStreamDecoder.DecodeNextMarker, if_neg (by omega)]
    simp only [hmode, ZeroSuppress.MarkerStreamDecoder.DecodeNextMarkerNormalMode,
      decodeTriggerMarker_wrongTag s e0 h0 htag]
  · intro d ms s hmode hall hdrop hsz
    have := decodeNextMarkers_normal_run ms d s [] hmode hall (by simp [hdrop]) (by omega)
    rw [this]
    have h0 : s.size - 16 * ms.length = 0 := by omega
    rw [h0]

/-- Witness for `normalMode_decode_spec`: two concrete 16-element trigger
markers decoded back to back, and a wrong-tag failure. -/
theorem normalMode_decode_spec_witness :
    ((⟨[], {}, ZeroSuppress.DecoderMode.Normal, ZeroSuppress.DecoderState.ExpectTrigger⟩ :
        ZeroSuppress.MarkerStreamDecoder).DecodeNextMarker
        ⟨[0x08, 0], 0, 2⟩ =
      .error ("Expected trigger marker",
        ⟨[], {}, ZeroSuppress.DecoderMode.Normal, ZeroSuppress.DecoderState.ExpectTrigger⟩,
        ⟨[0x08, 0], 0, 2⟩)) ∧
    (ZeroSuppress.MarkerStreamDecoder.DecodeNextMarkers
        ([[0x01, 0, 0, 0, 0, 0, 0, 0, 0, 0, 0, 0, 0, 0, 0, 0],
          [0x02, 5, 6, 0, 0, 0, 0, 0, 0, 0, 0, 0, 0, 0, 0, 0]] : List (List Nat)).length
        ⟨[], {}, ZeroSuppress.DecoderMode.Normal, ZeroSuppress.DecoderState.ExpectTrigger⟩
        ⟨([[0x01, 0, 0, 0, 0, 0, 0, 0, 0, 0, 0, 0, 0, 0, 0, 0],
           [0x02, 5, 6, 0, 0, 0, 0, 0, 0, 0, 0, 0, 0, 0, 0, 0]] : List (List Nat)).flatten, 0, 32⟩ =
      .ok (({ (⟨[], {}, ZeroSuppress.DecoderMode.Normal, ZeroSuppress.DecoderState.ExpectTrigger⟩ :
          ZeroSuppress.MarkerStreamDecoder) with recordQueue :=
            ([] : List ZeroSuppress.RecordDescriptor) ++
            ([[0x01, 0, 0, 0, 0, 0, 0, 0, 0, 0, 0, 0, 0, 0, 0, 0],
              [0x02, 5, 6, 0, 0, 0, 0, 0, 0, 0, 0, 0, 0, 0, 0, 0]] : List (List Nat)).map (fun m =>
              { trigger := triggerFromElements (m.headD 0) ((m.drop 1).headD 0) ((m.drop 2).headD 0) }) }),
        ⟨([[0x01, 0, 0, 0, 0, 0, 0, 0, 0, 0, 0, 0, 0, 0, 0, 0],
           [0x02, 5, 6, 0, 0, 0, 0, 0, 0, 0, 0, 0, 0, 0, 0, 0]] : List (List Nat)).flatten,
          0 + 16 * ([[0x01, 0, 0, 0, 0, 0, 0, 0, 0, 0, 0, 0, 0, 0, 0, 0],
           [0x02, 5, 6, 0, 0, 0, 0, 0, 0, 0, 0, 0, 0, 0, 0, 0]] : List (List Nat)).length, 0⟩)) :=
  ⟨normalMode_decode_spec.2.1 _ ⟨[0x08, 0], 0, 2⟩ 0x08 rfl (by decide) rfl (by decide),
   normalMode_decode_spec.2.2 _
     ([[0x01, 0, 0, 0, 0, 0, 0, 0, 0, 0, 0, 0, 0, 0, 0, 0],
       [0x02, 5, 6, 0, 0, 0, 0, 0, 0, 0, 0, 0, 0, 0, 0, 0]] : List (List Nat)) _
     rfl (by decide) (by decide) (by decide)⟩

/-- Helper: a trigger tag is never the dummy-gate tag. -/
theorem triggerTag_ne_dummy {t : Nat} (h : IsTriggerMarkerTag t = true) :
    t ≠ MarkerTag.DummyGate := by
  simp [IsTriggerMarkerTag, MarkerTag.TriggerNormal, MarkerTag.TriggerAverager] at h
  rcases h with h | h <;> simp [h, MarkerTag.DummyGate]

/-- Helper: a dummy-marker run is two elements per marker. -/
theorem dummyFlat_length (ds : List (Nat × Nat)) : (dummyFlat ds).length = 2 * ds.length := by
  induction ds with
  | nil => rfl
  | cons p ps ih =>
    simp [dummyFlat, List.length_cons, ih]
    omega

/-- Helper: one ZeroSuppress `DecodeNextMarker` call from ExpectTrigger or
ExpectAlign when the front element already carries a trigger tag: decode
the trigger, reset the in-progress record, move to ExpectGate. -/
theorem decodeNextMarker_zs_trigger_step (d : ZeroSuppress.MarkerStreamDecoder)
    (s : MarkerStream) (t0 t1 t2 : Nat)
    (hmode : d.mode = ZeroSuppress.DecoderMode.ZeroSuppress)
    (hstate : d.state = ZeroSuppress.DecoderState.ExpectTrigger ∨
      d.state = ZeroSuppress.DecoderState.ExpectAlign)
    (h0 : s.get 0 = some t0) (h1 : s.get 1 = some t1) (h2 : s.get 2 = some t2)
    (htag : IsTriggerMarkerTag (ExtractTag t0) = true) (hsz : 16 ≤ s.size) :
    d.DecodeNextMarker s =
      .ok ({ d with currentRecord := { trigger := triggerFromElements t0 t1 t2 },
                    state := ZeroSuppress.DecoderState.ExpectGate },
        ⟨s.data, s.offset + 16, s.size - 16⟩) := by
  have hnd : ExtractTag t0 ≠ MarkerTag.DummyGate := triggerTag_ne_dummy htag
  have hskip : ZeroSuppress.skipDummyLoop s = .ok (true, s) := by
    rw [ZeroSuppress.skipDummyLoop]
    simp only [if_neg (by omega : ¬ s.size = 0), h0, ne_eq, hnd, not_false_eq_true, if_true]
  rw [ZeroSuppress.MarkerStreamDecoder.DecodeNextMarker, if_neg (by omega)]
  simp only [hmode]
  rw [ZeroSuppress.MarkerStreamDecoder.DecodeNextMarkerZeroSuppressMode, if_pos hstate]
  simp only [hskip, decodeTriggerMarker_ok s t0 t1 t2 h0 h1 h2 htag hsz, hmode]

/-- Helper: one ZeroSuppress `DecodeNextMarker` call in ExpectGate on a
gate marker whose stop is an ordinary gate stop: the gate is appended to
the in-progress record, four elements are consumed, state stays
ExpectGate. -/
theorem decodeNextMarker_zs_gate_step (d : ZeroSuppress.MarkerStreamDecoder)
    (s : MarkerStream) (a0 a1 b0 b1 : Nat)
    (hmode : d.mode = ZeroSuppress.DecoderMode.ZeroSuppress)
    (hstate : d.state = ZeroSuppress.DecoderState.ExpectGate)
    (h0 : s.get 0 = some a0) (h1 : s.get 1 = some a1)
    (h2 : s.get 2 = some b0) (h3 : s.get 3 = some b1)
    (hta : ExtractTag a0 = MarkerTag.GateStartCst)
    (hpa : 1 ≤ ZeroSuppress.GateMarker.ExtractPosition a0 a1)
    (htb : ExtractTag b0 = MarkerTag.GateStopCst)
    (hpb : 1 ≤ ZeroSuppress.GateMarker.ExtractPosition b0 b1)
    (hab : ZeroSuppress.GateMarker.ExtractPosition a0 a1 ≤
      ZeroSuppress.GateMarker.ExtractPosition b0 b1)
    (hsz : 4 ≤ s.size) :
    d.DecodeNextMarker s =
      .ok ({ d with currentRecord := (d.currentRecord.AddGate
          ⟨⟨ZeroSuppress.GateMarker.ExtractPosition a0 a1, (((a1 >>> 24) &&& 0xff : Nat) : Int)⟩,
           ⟨ZeroSuppress.GateMarker.ExtractPosition b0 b1, (((b1 >>> 24) &&& 0xff : Nat) : Int),
            ExtractTag b0⟩⟩) },
        ⟨s.data, s.offset + 4, s.size - 4⟩) := by
  have hgate := decodeGateMarker_ok s a0 a1 b0 b1 h0 h1 h2 h3 hta hpa (Or.inl htb) hpb hab hsz
  have hnot : ¬ (d.state = ZeroSuppress.DecoderState.ExpectTrigger ∨
      d.state = ZeroSuppress.DecoderState.ExpectAlign) := by
    rw [hstate]; rintro (h | h) <;> cases h
  rw [ZeroSuppress.MarkerStreamDecoder.DecodeNextMarker, if_neg (by omega)]
  simp only [hmode]
  rw [ZeroSuppress.MarkerStreamDecoder.DecodeNextMarkerZeroSuppressMode, if_neg hnot,
    if_pos hstate]
  simp [h0, hta, hgate, ZeroSuppress.StopMarker.IsRecordStop, htb,
    MarkerTag.GateStopCst, MarkerTag.RecordStop, hmode]

/-- Helper: one ZeroSuppress `DecodeNextMarker` call in ExpectGate on a
gate marker whose stop is a record stop: the gate is appended, the record
stop marker is stored, the completed record is queued and the state moves
to ExpectAlign. -/
theorem decodeNextMarker_zs_gate_recordStop_step (d : ZeroSuppress.MarkerStreamDecoder)
    (s : MarkerStream) (a0 a1 b0 b1 : Nat)
    (hmode : d.mode = ZeroSuppress.DecoderMode.ZeroSuppress)
    (hstate : d.state = ZeroSuppress.DecoderState.ExpectGate)
    (h0 : s.get 0 = some a0) (h1 : s.get 1 = some a1)
    (h2 : s.get 2 = some b0) (h3 : s.get 3 = some b1)
    (hta : ExtractTag a0 = MarkerTag.GateStartCst)
    (hpa : 1 ≤ ZeroSuppress.GateMarker.ExtractPosition a0 a1)
    (htb : ExtractTag b0 = MarkerTag.RecordStop)
    (hpb : 1 ≤ ZeroSuppress.GateMarker.ExtractPosition b0 b1)
    (hab : ZeroSuppress.GateMarker.ExtractPosition a0 a1 ≤
      ZeroSuppress.GateMarker.ExtractPosition b0 b1)
    (hsz : 4 ≤ s.size) :
    d.DecodeNextMarker s =
      .ok ({ d with
          currentRecord := { (d.currentRecord.AddGate
            ⟨⟨ZeroSuppress.GateMarker.ExtractPosition a0 a1, (((a1 >>> 24) &&& 0xff : Nat) : Int)⟩,
             ⟨ZeroSuppress.GateMarker.ExtractPosition b0 b1, (((b1 >>> 24) &&& 0xff : Nat) : Int),
              ExtractTag b0⟩⟩) with
            recordStop := ⟨ZeroSuppress.GateMarker.ExtractPosition b0 b1,
              (((b1 >>> 24) &&& 0xff : Nat) : Int), ExtractTag b0⟩ },
          recordQueue := d.recordQueue ++ [{ (d.currentRecord.AddGate
            ⟨⟨ZeroSuppress.GateMarker.ExtractPosition a0 a1, (((a1 >>> 24) &&& 0xff : Nat) : Int)⟩,
             ⟨ZeroSuppress.GateMarker.ExtractPosition b0 b1, (((b1 >>> 24) &&& 0xff : Nat) : Int),
              ExtractTag b0⟩⟩) with
            recordStop := ⟨ZeroSuppress.GateMarker.ExtractPosition b0 b1,
              (((b1 >>> 24) &&& 0xff : Nat) : Int), ExtractTag b0⟩ }],
          state := ZeroSuppress.DecoderState.ExpectAlign },
        ⟨s.data, s.offset + 4, s.size - 4⟩) := by
  have hgate := decodeGateMarker_ok s a0 a1 b0 b1 h0 h1 h2 h3 hta hpa (Or.inr htb) hpb hab hsz
  have hnot : ¬ (d.state = ZeroSuppress.DecoderState.ExpectTrigger ∨
      d.state = ZeroSuppress.DecoderState.ExpectAlign) := by
    rw [hstate]; rintro (h | h) <;> cases h
  rw [ZeroSuppress.MarkerStreamDecoder.DecodeNextMarker, if_neg (by omega)]
  simp only [hmode]
  rw [ZeroSuppress.MarkerStreamDecoder.DecodeNextMarkerZeroSuppressMode, if_neg hnot,
    if_pos hstate]
  simp [h0, hta, hgate, ZeroSuppress.StopMarker.IsRecordStop, htb,
    MarkerTag.RecordStop, ZeroSuppress.RecordDescriptor.SetRecordStopMarker, hmode]

/-- C2: in ZeroSuppress mode, from ExpectTrigger or ExpectAlign, the
marker sequence trigger (16 elements), gate-start, gate-stop tagged
`GateStopCst`, gate-start, gate-stop tagged `RecordStop` (2 elements each,
well formed) decoded by three `DecodeNextMarker` calls appends exactly one
completed record with exactly 2 gates and a record-stop marker, consumes
the whole 24-element stream, and leaves the decoder in ExpectAlign; a
subsequent call in ExpectAlign skips any number of leading dummy-gate
markers before decoding the next trigger marker. -/
theorem zeroSuppress_sequence_spec :
    (∀ (q0 : List ZeroSuppress.RecordDescriptor) (cur : ZeroSuppress.RecordDescriptor)
       (st : ZeroSuppress.DecoderState),
      (st = ZeroSuppress.DecoderState.ExpectTrigger ∨
        st = ZeroSuppress.DecoderState.ExpectAlign) →
      ∀ t0 t1 t2 t3 t4 t5 t6 t7 t8 t9 t10 t11 t12 t13 t14 t15
        ga0 ga1 gb0 gb1 gc0 gc1 gd0 gd1 : Nat,
      IsTriggerMarkerTag (ExtractTag t0) = true →
      ExtractTag ga0 = MarkerTag.GateStartCst →
      1 ≤ ZeroSuppress.GateMarker.ExtractPosition ga0 ga1 →
      ExtractTag gb0 = MarkerTag.GateStopCst →
      1 ≤ ZeroSuppress.GateMarker.ExtractPosition gb0 gb1 →
      ZeroSuppress.GateMarker.ExtractPosition ga0 ga1 ≤
        ZeroSuppress.GateMarker.ExtractPosition gb0 gb1 →
      ExtractTag gc0 = MarkerTag.GateStartCst →
      1 ≤ ZeroSuppress.GateMarker.ExtractPosition gc0 gc1 →
      ExtractTag gd0 = MarkerTag.RecordStop →
      1 ≤ ZeroSuppress.GateMarker.ExtractPosition gd0 gd1 →
      ZeroSuppress.GateMarker.ExtractPosition gc0 gc1 ≤
        ZeroSuppress.GateMarker.ExtractPosition gd0 gd1 →
      ∃ r : ZeroSuppress.RecordDescriptor,
        ZeroSuppress.MarkerStreamDecoder.DecodeNextMarkers 3
            ⟨q0, cur, ZeroSuppress.DecoderMode.ZeroSuppress, st⟩
            ⟨[t0, t1, t2, t3, t4, t5, t6, t7, t8, t9, t10, t11, t12, t13, t14, t15,
              ga0, ga1, gb0, gb1, gc0, gc1, gd0, gd1], 0, 24⟩ =
          .ok (⟨q0 ++ [r], r, ZeroSuppress.DecoderMode.ZeroSuppress,
                ZeroSuppress.DecoderState.ExpectAlign⟩,
            ⟨[t0, t1, t2, t3, t4, t5, t6, t7, t8, t9, t10, t11, t12, t13, t14, t15,
              ga0, ga1, gb0, gb1, gc0, gc1, gd0, gd1], 24, 0⟩) ∧
        r.gateList.length = 2 ∧
        r.recordStop.tag = MarkerTag.RecordStop) ∧
    (∀ (d : ZeroSuppress.MarkerStreamDecoder) (s : MarkerStream) (ds : List (Nat × Nat))
       (t0 t1 t2 : Nat) (rest : List Nat),
      d.mode = ZeroSuppress.DecoderMode.ZeroSuppress →
      d.state = ZeroSuppress.DecoderState.ExpectAlign →
      (∀ p ∈ ds, ExtractTag p.1 = MarkerTag.DummyGate) →
      s.data.drop s.offset = dummyFlat ds ++ t0 :: t1 :: t2 :: rest →
      IsTriggerMarkerTag (ExtractTag t0) = true →
      2 * ds.length + 16 ≤ s.size →
      d.DecodeNextMarker s =
        .ok ({ d with currentRecord := { trigger := triggerFromElements t0 t1 t2 },
                      state := ZeroSuppress.DecoderState.ExpectGate },
          ⟨s.data, s.offset + 2 * ds.length + 16, s.size - 2 * ds.length - 16⟩)) := by
  constructor
  · intro q0 cur st hstate t0 t1 t2 t3 t4 t5 t6 t7 t8 t9 t10 t11 t12 t13 t14 t15
      ga0 ga1 gb0 gb1 gc0 gc1 gd0 gd1 htag hta hpa htb hpb hab htc hpc htd hpd hcd
    have hstep1 := decodeNextMarker_zs_trigger_step
      ⟨q0, cur, ZeroSuppress.DecoderMode.ZeroSuppress, st⟩
      ⟨[t0, t1, t2, t3, t4, t5, t6, t7, t8, t9, t10, t11, t12, t13, t14, t15,
        ga0, ga1, gb0, gb1, gc0, gc1, gd0, gd1], 0, 24⟩
      t0 t1 t2 rfl hstate rfl rfl rfl htag (by norm_num)
    have hstep2 := decodeNextMarker_zs_gate_step
      ⟨q0, { trigger := triggerFromElements t0 t1 t2 },
        ZeroSuppress.DecoderMode.ZeroSuppress, ZeroSuppress.DecoderState.ExpectGate⟩
      ⟨[t0, t1, t2, t3, t4, t5, t6, t7, t8, t9, t10, t11, t12, t13, t14, t15,
        ga0, ga1, gb0, gb1, gc0, gc1, gd0, gd1], 16, 8⟩
      ga0 ga1 gb0 gb1 rfl rfl rfl rfl rfl rfl hta hpa htb hpb hab (by norm_num)
    have hstep3 := decodeNextMarker_zs_gate_recordStop_step
      ⟨q0, { trigger := triggerFromElements t0 t1 t2,
             gateList := [⟨⟨ZeroSuppress.GateMarker.ExtractPosition ga0 ga1,
                            (((ga1 >>> 24) &&& 0xff : Nat) : Int)⟩,
                           ⟨ZeroSuppress.GateMarker.ExtractPosition gb0 gb1,
                            (((gb1 >>> 24) &&& 0xff : Nat) : Int), ExtractTag gb0⟩⟩] },
        ZeroSuppress.DecoderMode.ZeroSuppress, ZeroSuppress.DecoderState.ExpectGate⟩
      ⟨[t0, t1, t2, t3, t4, t5, t6, t7, t8, t9, t10, t11, t12, t13, t14, t15,
        ga0, ga1, gb0, gb1, gc0, gc1, gd0, gd1], 20, 4⟩
      gc0 gc1 gd0 gd1 rfl rfl rfl rfl rfl rfl htc hpc htd hpd hcd (by norm_num)
    refine ⟨{ trigger := triggerFromElements t0 t1 t2,
              gateList := [⟨⟨ZeroSuppress.GateMarker.ExtractPosition ga0 ga1,
                             (((ga1 >>> 24) &&& 0xff : Nat) : Int)⟩,
                            ⟨ZeroSuppress.GateMarker.ExtractPosition gb0 gb1,
                             (((gb1 >>> 24) &&& 0xff : Nat) : Int), ExtractTag gb0⟩⟩,
                           ⟨⟨ZeroSuppress.GateMarker.ExtractPosition gc0 gc1,
                             (((gc1 >>> 24) &&& 0xff : Nat) : Int)⟩,
                            ⟨ZeroSuppress.GateMarker.ExtractPosition gd0 gd1,
                             (((gd1 >>> 24) &&& 0xff : Nat) : Int), ExtractTag gd0⟩⟩],
              recordStop := ⟨ZeroSuppress.GateMarker.ExtractPosition gd0 gd1,
                (((gd1 >>> 24) &&& 0xff : Nat) : Int), ExtractTag gd0⟩ }, ?_, rfl, htd⟩
    exact (decodeNextMarkers_succ 2 _ _ _ _ hstep1).trans
      ((decodeNextMarkers_succ 1 _ _ _ _ hstep2).trans
        ((decodeNextMarkers_succ 0 _ _ _ _ hstep3).trans (decodeNextMarkers_zero _ _)))
  · intro d s ds t0 t1 t2 rest hmode hstate hall hdrop htag hsz
    have hnd := triggerTag_ne_dummy htag
    have hskip := skipDummyLoop_then_marker ds s t0 (t1 :: t2 :: rest) hall hdrop hnd (by omega)
    have hdropmid : s.data.drop (s.offset + 2 * ds.length) = t0 :: t1 :: t2 :: rest := by
      rw [← List.drop_drop, hdrop,
        show 2 * ds.length = (dummyFlat ds).length from (dummyFlat_length ds).symm]
      exact List.drop_left _ _
    have hg0 : (⟨s.data, s.offset + 2 * ds.length, s.size - 2 * ds.length⟩ : MarkerStream).get 0
        = some t0 := by
      rw [ArraySegment.get, ← List.getElem?_drop, hdropmid]
      simp
    have hg1 : (⟨s.data, s.offset + 2 * ds.length, s.size - 2 * ds.length⟩ : MarkerStream).get 1
        = some t1 := by
      rw [ArraySegment.get, ← List.getElem?_drop, hdropmid]
      simp
    have hg2 : (⟨s.data, s.offset + 2 * ds.length, s.size - 2 * ds.length⟩ : MarkerStream).get 2
        = some t2 := by
      rw [ArraySegment.get, ← List.getElem?_drop, hdropmid]
      simp
    have htrig := decodeTriggerMarker_ok
      ⟨s.data, s.offset + 2 * ds.length, s.size - 2 * ds.length⟩ t0 t1 t2 hg0 hg1 hg2 htag
      (by simp; omega)
    rw [ZeroSuppress.MarkerStreamDecoder.DecodeNextMarker, if_neg (by omega)]
    simp only [hmode]
    rw [ZeroSuppress.MarkerStreamDecoder.DecodeNextMarkerZeroSuppressMode,
      if_pos (Or.inr hstate)]
    simp only [hskip, htrig, hmode]

/-- Witness for `zeroSuppress_sequence_spec`: the concrete five-marker
sequence and a dummy-then-trigger stream. -/
theorem zeroSuppress_sequence_spec_witness :
    (∃ r : ZeroSuppress.RecordDescriptor,
      ZeroSuppress.MarkerStreamDecoder.DecodeNextMarkers 3
          ⟨[], {}, ZeroSuppress.DecoderMode.ZeroSuppress,
            ZeroSuppress.DecoderState.ExpectTrigger⟩
          ⟨[1, 0, 0, 0, 0, 0, 0, 0, 0, 0, 0, 0, 0, 0, 0, 0,
            0x01000004, 0, 0x01000005, 0, 0x01000004, 0, 0x0200000a, 0], 0, 24⟩ =
        .ok (⟨[] ++ [r], r, ZeroSuppress.DecoderMode.ZeroSuppress,
              ZeroSuppress.DecoderState.ExpectAlign⟩,
          ⟨[1, 0, 0, 0, 0, 0, 0, 0, 0, 0, 0, 0, 0, 0, 0, 0,
            0x01000004, 0, 0x01000005, 0, 0x01000004, 0, 0x0200000a, 0], 24, 0⟩) ∧
      r.gateList.length = 2 ∧
      r.recordStop.tag = MarkerTag.RecordStop) ∧
    ((⟨[], {}, ZeroSuppress.DecoderMode.ZeroSuppress,
        ZeroSuppress.DecoderState.ExpectAlign⟩ :
          ZeroSuppress.MarkerStreamDecoder).DecodeNextMarker
        ⟨[8, 0, 1, 0, 0, 0, 0, 0, 0, 0, 0, 0, 0, 0, 0, 0, 0, 0], 0, 18⟩ =
      .ok ({ (⟨[], {}, ZeroSuppress.DecoderMode.ZeroSuppress,
              ZeroSuppress.DecoderState.ExpectAlign⟩ :
                ZeroSuppress.MarkerStreamDecoder) with
             currentRecord := { trigger := triggerFromElements 1 0 0 },
             state := ZeroSuppress.DecoderState.ExpectGate },
        ⟨[8, 0, 1, 0, 0, 0, 0, 0, 0, 0, 0, 0, 0, 0, 0, 0, 0, 0],
          0 + 2 * ([((8 : Nat), (0 : Nat))] : List (Nat × Nat)).length + 16,
          18 - 2 * ([((8 : Nat), (0 : Nat))] : List (Nat × Nat)).length - 16⟩)) :=
  ⟨zeroSuppress_sequence_spec.1 [] {} ZeroSuppress.DecoderState.ExpectTrigger (Or.inl rfl)
     1 0 0 0 0 0 0 0 0 0 0 0 0 0 0 0 0x01000004 0 0x01000005 0 0x01000004 0 0x0200000a 0
     (by decide) (by decide) (by decide) (by decide) (by decide) (by decide)
     (by decide) (by decide) (by decide) (by decide) (by decide),
   zeroSuppress_sequence_spec.2
     ⟨[], {}, ZeroSuppress.DecoderMode.ZeroSuppress, ZeroSuppress.DecoderState.ExpectAlign⟩
     ⟨[8, 0, 1, 0, 0, 0, 0, 0, 0, 0, 0, 0, 0, 0, 0, 0, 0, 0], 0, 18⟩
     ([((8 : Nat), (0 : Nat))] : List (Nat × Nat)) 1 0 0
     [0, 0, 0, 0, 0, 0, 0, 0, 0, 0, 0, 0, 0]
     rfl rfl (by decide) (by decide) (by decide) (by decide)⟩

end LibTool
